import Mathlib

/-!
Verification development for the distillation digital-twin simulation engine
(`sim.worker.js`, P&ID v2.1.1).  JavaScript numbers are modelled as exact
rationals; the `Math.random`-driven measurement noise is modelled as an
explicit input stream of per-step noise samples, so every run is a function
of its configuration and its noise stream.
-/

/-- `clamp(x, lo, hi) = Math.max(lo, Math.min(hi, x))`. -/
def clamp (x lo hi : ℚ) : ℚ := max lo (min hi x)

/-- `clamp01(x) = clamp(x, 0, 1)`. -/
def clamp01 (x : ℚ) : ℚ := clamp x 0 1

/-- `step(t, t0, amp) = t >= t0 ? amp : 0`. -/
def stepSig (t t0 amp : ℚ) : ℚ := if t0 ≤ t then amp else 0

/-- `Math.sign`. -/
def jsSign (q : ℚ) : ℚ := if 0 < q then 1 else if q < 0 then -1 else 0

/-- `Math.round` (round half toward positive infinity). -/
def jsRound (q : ℚ) : ℤ := ⌊q + 1/2⌋

/-- Setpoint ramping (`ramp(prev_sp, target_sp, rate_per_s, dt)`). -/
def ramp (prev_sp target_sp rate_per_s dt : ℚ) : ℚ :=
  let rate := |rate_per_s|
  if rate ≤ 0 then target_sp
  else
    let maxDelta := rate * dt
    let delta := target_sp - prev_sp
    if |delta| ≤ maxDelta then target_sp
    else prev_sp + jsSign delta * maxDelta

/-! ## 2) Process model: deviation-form FOPDT block (`class FOPDTDev`) -/

/-- State of one deviation-form FOPDT block.  `buf` is the transport-delay
queue (`delay_steps + 1` slots); `y` is the current output. -/
structure FOPDTDev where
  K : ℚ
  tau : ℚ
  theta : ℚ
  dt : ℚ
  y0 : ℚ
  u0 : ℚ
  delay_steps : ℕ
  buf : List ℚ
  y : ℚ
deriving DecidableEq, Inhabited

/-- The `FOPDTDev` constructor: clamp `tau`, `theta`, `dt`, compute
`delay_steps = round(theta/dt)`, fill the delay buffer with `u0`. -/
def mkFOPDT (K tau theta y0 u0 dt : ℚ) : FOPDTDev :=
  let tau' := max tau (1/1000000000)
  let theta' := max theta 0
  let dt' := max dt (1/1000000000)
  let ds := (jsRound (theta' / dt')).toNat
  { K := K, tau := tau', theta := theta', dt := dt', y0 := y0, u0 := u0,
    delay_steps := ds, buf := List.replicate (ds + 1) u0, y := y0 }

/-- `FOPDTDev.reset(y0, u0)`: rebind the anchors, refill the delay buffer
with the new `u0` and set `y := y0`. -/
def FOPDTDev.reset (s : FOPDTDev) (y0 u0 : ℚ) : FOPDTDev :=
  { s with y0 := y0, u0 := u0, y := y0,
           buf := List.replicate (s.delay_steps + 1) u0 }

/-- `FOPDTDev.update(u, d)`: push `u`, shift the delayed input `u_del`,
form `y_ss = y0 + K*(u_del - u0) + d` and advance `y` by
`(y_ss - y)*(dt/tau)`.  Returns the new state and the returned `y`. -/
def FOPDTDev.update (s : FOPDTDev) (u d : ℚ) : FOPDTDev × ℚ :=
  let buf2 := s.buf ++ [u]
  let u_del := buf2.headD 0
  let buf' := buf2.tail
  let y_ss := s.y0 + s.K * (u_del - s.u0) + d
  let dy := (y_ss - s.y) * (s.dt / s.tau)
  let y' := s.y + dy
  ({ s with buf := buf', y := y' }, y')

/-- Iterate `update u 0` on a block `n` times (state part only). -/
def iterFOPDT (s : FOPDTDev) (u : ℚ) : ℕ → FOPDTDev
  | 0 => s
  | n + 1 => ((iterFOPDT s u n).update u 0).1

/-! ## 3) PI controller (`class PI`) -/

inductive PIAction | direct | reverse
deriving DecidableEq, Inhabited

/-- Per-loop PI parameters as they appear in `cfg.LOOP.*`. -/
structure LoopCfg where
  Kp : ℚ
  Ti : ℚ
  out_min : ℚ
  out_max : ℚ
  bias : ℚ
  aw : ℚ
  action : PIAction
deriving DecidableEq, Inhabited

/-- PI controller state (constants plus integrator `I` and `u_prev`). -/
structure PI where
  Kp : ℚ
  Ti : ℚ
  dt : ℚ
  out_min : ℚ
  out_max : ℚ
  bias : ℚ
  aw : ℚ
  action : PIAction
  I : ℚ
  u_prev : ℚ
deriving DecidableEq, Inhabited

/-- The `PI` constructor (`new PI({...cfg.LOOP.X, dt})`): `Ti` is clamped to
at least `1e-9`, `I = 0`, `u_prev = clamp(bias, out_min, out_max)`. -/
def mkPI (c : LoopCfg) (dt : ℚ) : PI :=
  { Kp := c.Kp, Ti := max c.Ti (1/1000000000), dt := dt,
    out_min := c.out_min, out_max := c.out_max, bias := c.bias, aw := c.aw,
    action := c.action, I := 0, u_prev := clamp c.bias c.out_min c.out_max }

/-- `PI._err(sp, pv)`: direct ⇒ `SP - PV`, reverse ⇒ `PV - SP`. -/
def PI.err (c : PI) (sp pv : ℚ) : ℚ :=
  match c.action with
  | PIAction.reverse => pv - sp
  | PIAction.direct => sp - pv

/-- `PI.reset(u0)`. -/
def PI.reset (c : PI) (u0 : ℚ) : PI :=
  { c with I := 0, u_prev := clamp u0 c.out_min c.out_max }

/-- `PI.track(u_actual, sp, pv)`: bumpless re-initialization.  Clamp
`u_actual`; if `|Kp| < 1e-9` zero the integrator, else solve
`I = (u - bias)/Kp - e`; set `u_prev := u`. -/
def PI.track (c : PI) (u_actual sp pv : ℚ) : PI :=
  let u := clamp u_actual c.out_min c.out_max
  let e := c.err sp pv
  if |c.Kp| < 1/1000000000 then { c with I := 0, u_prev := u }
  else { c with I := (u - c.bias) / c.Kp - e, u_prev := u }

/-- `PI.update(sp, pv)`: integrate, saturate, back-calculate.
Returns the new state and the returned output `u`. -/
def PI.update (c : PI) (sp pv : ℚ) : PI × ℚ :=
  let e := c.err sp pv
  let I1 := c.I + (c.dt / c.Ti) * e
  let u_unsat := c.bias + c.Kp * (e + I1)
  let u := clamp u_unsat c.out_min c.out_max
  let I2 := I1 + c.aw * (u - u_unsat)
  ({ c with I := I2, u_prev := u }, u)

/-! ### clamp lemmas -/

lemma clamp_mem (x lo hi : ℚ) (h : lo ≤ hi) : lo ≤ clamp x lo hi ∧ clamp x lo hi ≤ hi := by
  unfold clamp
  constructor
  · exact le_max_left _ _
  · exact max_le h (min_le_left _ _)

lemma clamp_of_mem (x lo hi : ℚ) (h1 : lo ≤ x) (h2 : x ≤ hi) : clamp x lo hi = x := by
  unfold clamp
  rw [min_eq_right h2, max_eq_right h1]

/-- The clamp map moves points toward any fixed point of the interval:
for `a ∈ [lo, hi]`, `|clamp v - a| ≤ |v - a|`. -/
lemma abs_clamp_sub_le (v a lo hi : ℚ) (h1 : lo ≤ a) (h2 : a ≤ hi) :
    |clamp v lo hi - a| ≤ |v - a| := by
  unfold clamp
  rcases le_total v lo with hv | hv
  · rw [min_eq_right (le_trans hv (le_trans h1 h2)), max_eq_left hv]
    rw [abs_of_nonpos (by linarith : lo - a ≤ 0),
        abs_of_nonpos (by linarith : v - a ≤ 0)]
    linarith
  · rcases le_total v hi with hv2 | hv2
    · rw [min_eq_right hv2, max_eq_right hv]
    · rw [min_eq_left hv2, max_eq_right (le_trans h1 h2)]
      rw [abs_of_nonneg (by linarith), abs_of_nonneg (by linarith)]
      linarith

/-! ### C5: FOPDT anchored steady state -/

/-- C5: For every `FOPDTDev` block immediately after `reset(y0, u0)`,
repeatedly calling `update(u0, 0)` for any number of steps leaves the output
`y` exactly at `y0` (hence within any tolerance of `y0`), regardless of the
gain `K`: the anchored point is a steady state of the deviation form. -/
theorem fopdt_anchor_steady (s : FOPDTDev) (y0 u0 : ℚ) (n : ℕ) :
    (iterFOPDT (s.reset y0 u0) u0 n).y = y0 := by
  suffices h : ∀ m, (iterFOPDT (s.reset y0 u0) u0 m).y = y0 ∧
      (iterFOPDT (s.reset y0 u0) u0 m).y0 = y0 ∧
      (iterFOPDT (s.reset y0 u0) u0 m).u0 = u0 ∧
      (iterFOPDT (s.reset y0 u0) u0 m).buf =
        List.replicate ((iterFOPDT (s.reset y0 u0) u0 m).delay_steps + 1) u0 by
    exact (h n).1
  intro m
  induction m with
  | zero => simp [iterFOPDT, FOPDTDev.reset]
  | succ k ih =>
    obtain ⟨hy, hy0, hu0, hbuf⟩ := ih
    set t := iterFOPDT (s.reset y0 u0) u0 k with ht
    have hbuf2 : t.buf ++ [u0] = u0 :: (List.replicate t.delay_steps u0 ++ [u0]) := by
      rw [hbuf]; simp [List.replicate_succ]
    refine ⟨?_, ?_, ?_, ?_⟩ <;>
      simp [iterFOPDT, FOPDTDev.update, ← ht, hbuf2, hy, hy0, hu0]
    rw [List.replicate_succ']

/-! ### C1: bumpless round trip `track` then `update` -/

/-- With `|Kp| ≥ 1e-9`, the output of `update(sp, pv)` immediately after
`track(u, sp, pv)` is `clamp(clamp(u) + Kp·(dt/Ti)·e)`. -/
lemma track_update_val (c : PI) (u sp pv : ℚ) (hK : ¬ (|c.Kp| < 1/1000000000)) :
    ((c.track u sp pv).update sp pv).2 =
      clamp (clamp u c.out_min c.out_max + c.Kp * (c.dt / c.Ti) * c.err sp pv)
        c.out_min c.out_max := by
  have hKp : c.Kp ≠ 0 := by
    intro h
    apply hK
    rw [h]
    norm_num
  have key : c.Kp * ((clamp u c.out_min c.out_max - c.bias) / c.Kp) =
      clamp u c.out_min c.out_max - c.bias := by
    rw [mul_comm, div_mul_cancel₀ _ hKp]
  simp only [PI.track, if_neg hK, PI.update, PI.err]
  congr 1
  linear_combination key

/-- PI counterexample state: `Kp = 2` (gain above one). -/
def piC1 : PI :=
  { Kp := 2, Ti := 1, dt := 1, out_min := 0, out_max := 100, bias := 50,
    aw := 0, action := PIAction.direct, I := 0, u_prev := 50 }

/-- C1 counterexample: for the controller `piC1` (`Kp = 2 ≥ 1e-9`), after
`track(50, 1, 0)` (so `e = 1`), a single `update(1, 0)` returns `52`, which
is NOT within the claimed one-step drift `(dt/Ti)·e = 1` of the tracked
`u = 50`: the output drift is scaled by `Kp`. -/
theorem pi_bumpless_claim_false :
    ¬ (|((piC1.track 50 1 0).update 1 0).2 - clamp 50 piC1.out_min piC1.out_max| ≤
        (piC1.dt / piC1.Ti) * |piC1.err 1 0|) := by with_unfolding_all decide

/-- C1 (amended): for every PI state with `|Kp| ≥ 1e-9` and `out_min ≤ out_max`,
immediately after `track(u, sp, pv)` a single `update(sp, pv)` returns the
tracked (clamped) `u` exactly when the action-signed error `e` is zero, and in
general returns a value within `|Kp·(dt/Ti)·e|` of that `u`. -/
theorem pi_track_update_bumpless (c : PI) (u sp pv : ℚ)
    (hK : 1/1000000000 ≤ |c.Kp|) (hlim : c.out_min ≤ c.out_max) :
    (c.err sp pv = 0 → ((c.track u sp pv).update sp pv).2 = clamp u c.out_min c.out_max) ∧
    |((c.track u sp pv).update sp pv).2 - clamp u c.out_min c.out_max| ≤
      |c.Kp * (c.dt / c.Ti) * c.err sp pv| := by
  have hK' : ¬ (|c.Kp| < 1/1000000000) := not_lt.mpr hK
  rw [track_update_val c u sp pv hK']
  obtain ⟨hlo, hhi⟩ := clamp_mem u c.out_min c.out_max hlim
  constructor
  · intro he
    rw [he, mul_zero, add_zero]
    exact clamp_of_mem _ _ _ hlo hhi
  · have h := abs_clamp_sub_le
      (clamp u c.out_min c.out_max + c.Kp * (c.dt / c.Ti) * c.err sp pv)
      (clamp u c.out_min c.out_max) c.out_min c.out_max hlo hhi
    simpa using h

/-- C1 witness: the amended bound evaluated on the concrete controller `piC1`. -/
theorem pi_track_update_bumpless_witness :
    |((piC1.track 50 1 0).update 1 0).2 - clamp 50 piC1.out_min piC1.out_max| ≤
      |piC1.Kp * (piC1.dt / piC1.Ti) * piC1.err 1 0| :=
  (pi_track_update_bumpless piC1 50 1 0 (by with_unfolding_all decide) (by with_unfolding_all decide)).2

/-! ## 4) Quality gate (`class QualityGate`) -/

inductive Route | RECYCLE | PRODUCT
deriving DecidableEq, Inhabited

/-- `cfg.GATE` thresholds, delays and permissive window. -/
structure GateCfg where
  TT106_on_low : ℚ
  TT106_on_high : ℚ
  rho15_on_low : ℚ
  rho15_on_high : ℚ
  TT106_off_low : ℚ
  TT106_off_high : ℚ
  rho15_off_low : ℚ
  rho15_off_high : ℚ
  dTsub_min : ℚ
  dTsub_min_off : ℚ
  delay_on_s : ℚ
  delay_off_s : ℚ
  perm_L_min : ℚ
  perm_L_max : ℚ
deriving DecidableEq, Inhabited

/-- Gate state: current route and the two dwell timers. -/
structure Gate where
  route : Route
  on_timer : ℚ
  off_timer : ℚ
deriving DecidableEq, Inhabited

/-- State after the constructor / `reset()`: RECYCLE with both timers zero. -/
def gate0 : Gate := ⟨Route.RECYCLE, 0, 0⟩

/-- The gate's `on_ok` condition. -/
def gateOnOk (c : GateCfg) (TT106 rho15 dTsub : ℚ) : Bool :=
  decide ((c.TT106_on_low ≤ TT106 ∧ TT106 ≤ c.TT106_on_high) ∧
          (c.rho15_on_low ≤ rho15 ∧ rho15 ≤ c.rho15_on_high) ∧
          c.dTsub_min ≤ dTsub)

/-- The gate's `off_bad` condition. -/
def gateOffBad (c : GateCfg) (TT106 rho15 dTsub : ℚ) : Bool :=
  decide ((TT106 < c.TT106_off_low ∨ c.TT106_off_high < TT106) ∨
          (rho15 < c.rho15_off_low ∨ c.rho15_off_high < rho15) ∨
          dTsub < c.dTsub_min_off)

/-- `QualityGate.update(dt, TT106, rho15, dTsub, analyzer_ok, permissive_ok)`.
Returns the new state (whose `route` is the value the method returns). -/
def gateStep (c : GateCfg) (g : Gate) (dt TT106 rho15 dTsub : ℚ)
    (analyzer_ok permissive_ok : Bool) : Gate :=
  if analyzer_ok = false ∨ permissive_ok = false then gate0
  else
    let on_ok := gateOnOk c TT106 rho15 dTsub
    let off_bad := gateOffBad c TT106 rho15 dTsub
    match g.route with
    | Route.RECYCLE =>
      let ot := if on_ok then g.on_timer + dt else 0
      if c.delay_on_s ≤ ot then ⟨Route.PRODUCT, 0, 0⟩
      else ⟨Route.RECYCLE, ot, g.off_timer⟩
    | Route.PRODUCT =>
      let ft := if off_bad then g.off_timer + dt else 0
      if c.delay_off_s ≤ ft then ⟨Route.RECYCLE, 0, 0⟩
      else ⟨Route.PRODUCT, g.on_timer, ft⟩

/-- One step's worth of gate inputs, for reasoning about runs of
`QualityGate.update` in isolation. -/
structure GInput where
  dt : ℚ
  TT106 : ℚ
  rho15 : ℚ
  dTsub : ℚ
  analyzer_ok : Bool
  permissive_ok : Bool
deriving DecidableEq, Inhabited

/-- Apply one `GInput` to a gate. -/
def gateFeed (c : GateCfg) (g : Gate) (x : GInput) : Gate :=
  gateStep c g x.dt x.TT106 x.rho15 x.dTsub x.analyzer_ok x.permissive_ok

/-- A run of the gate over a list of inputs. -/
def gateRun (c : GateCfg) (g : Gate) (xs : List GInput) : Gate :=
  xs.foldl (gateFeed c) g

/-- A "good" promotion input: both flags true and `on_ok` holds. -/
def goodOn (c : GateCfg) (x : GInput) : Bool :=
  x.analyzer_ok && x.permissive_ok && gateOnOk c x.TT106 x.rho15 x.dTsub

/-- A "bad" demotion input: both flags true and `off_bad` holds. -/
def badOff (c : GateCfg) (x : GInput) : Bool :=
  x.analyzer_ok && x.permissive_ok && gateOffBad c x.TT106 x.rho15 x.dTsub

/-- Total duration of the trailing run of consecutive `goodOn` inputs. -/
def onStreak (c : GateCfg) (xs : List GInput) : ℚ :=
  xs.foldl (fun acc x => if goodOn c x then acc + x.dt else 0) 0

/-- Total duration of the trailing run of consecutive `badOff` inputs. -/
def offStreak (c : GateCfg) (xs : List GInput) : ℚ :=
  xs.foldl (fun acc x => if badOff c x then acc + x.dt else 0) 0

lemma onStreak_append (c : GateCfg) (xs : List GInput) (x : GInput) :
    onStreak c (xs ++ [x]) =
      if goodOn c x then onStreak c xs + x.dt else 0 := by
  simp [onStreak, List.foldl_append]

lemma offStreak_append (c : GateCfg) (xs : List GInput) (x : GInput) :
    offStreak c (xs ++ [x]) =
      if badOff c x then offStreak c xs + x.dt else 0 := by
  simp [offStreak, List.foldl_append]

lemma onStreak_nonneg (c : GateCfg) (xs : List GInput)
    (hdt : ∀ x ∈ xs, 0 ≤ x.dt) : 0 ≤ onStreak c xs := by
  induction xs using List.reverseRecOn with
  | nil => simp [onStreak]
  | append_singleton ys y ih =>
    rw [onStreak_append]
    split
    · have h1 := ih (fun x hx => hdt x (List.mem_append_left _ hx))
      have h2 := hdt y (List.mem_append_right _ (List.mem_singleton_self y))
      linarith
    · exact le_refl 0

lemma offStreak_nonneg (c : GateCfg) (xs : List GInput)
    (hdt : ∀ x ∈ xs, 0 ≤ x.dt) : 0 ≤ offStreak c xs := by
  induction xs using List.reverseRecOn with
  | nil => simp [offStreak]
  | append_singleton ys y ih =>
    rw [offStreak_append]
    split
    · have h1 := ih (fun x hx => hdt x (List.mem_append_left _ hx))
      have h2 := hdt y (List.mem_append_right _ (List.mem_singleton_self y))
      linarith
    · exact le_refl 0

lemma gateRun_append_singleton (c : GateCfg) (g : Gate) (ys : List GInput) (y : GInput) :
    gateRun c g (ys ++ [y]) = gateFeed c (gateRun c g ys) y := by
  simp [gateRun, List.foldl_append]

/-- Reachability invariant of the gate: in PRODUCT the on-timer is zero, in
RECYCLE the off-timer is zero, and each timer is bounded by the duration of
the trailing streak of qualifying inputs. -/
lemma gateRun_inv (c : GateCfg) (xs : List GInput) (hdt : ∀ x ∈ xs, 0 ≤ x.dt) :
    ((gateRun c gate0 xs).route = Route.PRODUCT → (gateRun c gate0 xs).on_timer = 0) ∧
    ((gateRun c gate0 xs).route = Route.RECYCLE → (gateRun c gate0 xs).off_timer = 0) ∧
    (gateRun c gate0 xs).on_timer ≤ onStreak c xs ∧
    (gateRun c gate0 xs).off_timer ≤ offStreak c xs := by
  induction xs using List.reverseRecOn with
  | nil => simp [gateRun, gate0, onStreak, offStreak]
  | append_singleton ys y ih =>
    have hys : ∀ x ∈ ys, 0 ≤ x.dt := fun x hx => hdt x (List.mem_append_left _ hx)
    have hy : 0 ≤ y.dt := hdt y (List.mem_append_right _ (List.mem_singleton_self y))
    obtain ⟨ih1, ih2, ih3, ih4⟩ := ih hys
    have hon0 : (0:ℚ) ≤ onStreak c (ys ++ [y]) := onStreak_nonneg c _ hdt
    have hoff0 : (0:ℚ) ≤ offStreak c (ys ++ [y]) := offStreak_nonneg c _ hdt
    rw [gateRun_append_singleton]
    set g := gateRun c gate0 ys with hg
    unfold gateFeed gateStep
    by_cases hflag : y.analyzer_ok = false ∨ y.permissive_ok = false
    · rw [if_pos hflag]
      exact ⟨fun _ => rfl, fun _ => rfl, hon0, hoff0⟩
    · rw [if_neg hflag]
      have ha : y.analyzer_ok = true := by
        cases h : y.analyzer_ok
        · exact absurd (Or.inl h) hflag
        · rfl
      have hp : y.permissive_ok = true := by
        cases h : y.permissive_ok
        · exact absurd (Or.inr h) hflag
        · rfl
      rcases hgr : g.route with _ | _
      · -- in RECYCLE
        have hoff : g.off_timer = 0 := ih2 hgr
        simp only [hgr]
        by_cases hok : gateOnOk c y.TT106 y.rho15 y.dTsub = true
        · have hgood : goodOn c y = true := by simp [goodOn, ha, hp, hok]
          rw [if_pos hok]
          split_ifs with hd
          · exact ⟨fun _ => rfl, fun h => h.elim, hon0, hoff0⟩
          · refine ⟨fun h => h.elim, fun _ => hoff, ?_, ?_⟩
            · rw [onStreak_append, if_pos hgood]
              show g.on_timer + y.dt ≤ onStreak c ys + y.dt
              linarith
            · rw [hoff]
              exact hoff0
        · rw [if_neg hok]
          split_ifs with hd
          · exact ⟨fun _ => rfl, fun h => h.elim, hon0, hoff0⟩
          · refine ⟨fun h => h.elim, fun _ => hoff, hon0, ?_⟩
            rw [hoff]
            exact hoff0
      · -- in PRODUCT
        have hon : g.on_timer = 0 := ih1 hgr
        simp only [hgr]
        by_cases hbad : gateOffBad c y.TT106 y.rho15 y.dTsub = true
        · have hbadOff : badOff c y = true := by simp [badOff, ha, hp, hbad]
          rw [if_pos hbad]
          split_ifs with hd
          · exact ⟨fun h => h.elim, fun _ => rfl, hon0, hoff0⟩
          · refine ⟨fun _ => hon, fun h => h.elim, ?_, ?_⟩
            · rw [hon]
              exact hon0
            · rw [offStreak_append, if_pos hbadOff]
              show g.off_timer + y.dt ≤ offStreak c ys + y.dt
              linarith
        · rw [if_neg hbad]
          split_ifs with hd
          · exact ⟨fun h => h.elim, fun _ => rfl, hon0, hoff0⟩
          · refine ⟨fun _ => hon, fun h => h.elim, ?_, hoff0⟩
            rw [hon]
            exact hon0

/-- C2: For every run of the `QualityGate.update` step function (with
nonnegative time steps), a transition from RECYCLE to PRODUCT at the last
step implies that the trailing streak of continuous `on_ok` inputs — with
`analyzer_ok` and `permissive_ok` true throughout — lasts at least
`delay_on_s` seconds; a transition from PRODUCT to RECYCLE via the timer
path (flags true at the transition step) implies the trailing streak of
continuous `off_bad` inputs lasts at least `delay_off_s` seconds. -/
theorem gate_transition_delays (c : GateCfg) (xs : List GInput) (x : GInput)
    (hdt : ∀ y ∈ xs ++ [x], 0 ≤ y.dt) :
    ((gateRun c gate0 xs).route = Route.RECYCLE →
      (gateRun c gate0 (xs ++ [x])).route = Route.PRODUCT →
      c.delay_on_s ≤ onStreak c (xs ++ [x])) ∧
    ((gateRun c gate0 xs).route = Route.PRODUCT →
      x.analyzer_ok = true → x.permissive_ok = true →
      (gateRun c gate0 (xs ++ [x])).route = Route.RECYCLE →
      c.delay_off_s ≤ offStreak c (xs ++ [x])) := by
  have hxs : ∀ y ∈ xs, 0 ≤ y.dt := fun y hy => hdt y (List.mem_append_left _ hy)
  have hx : 0 ≤ x.dt := hdt x (List.mem_append_right _ (List.mem_singleton_self x))
  obtain ⟨ih1, ih2, ih3, ih4⟩ := gateRun_inv c xs hxs
  have hon0 : (0:ℚ) ≤ onStreak c (xs ++ [x]) := onStreak_nonneg c _ hdt
  have hoff0 : (0:ℚ) ≤ offStreak c (xs ++ [x]) := offStreak_nonneg c _ hdt
  rw [gateRun_append_singleton]
  set g := gateRun c gate0 xs with hg
  constructor
  · intro hrec hprod
    unfold gateFeed gateStep at hprod
    by_cases hflag : x.analyzer_ok = false ∨ x.permissive_ok = false
    · rw [if_pos hflag] at hprod
      exact absurd hprod (by simp [gate0])
    · rw [if_neg hflag] at hprod
      have ha : x.analyzer_ok = true := by
        cases h : x.analyzer_ok
        · exact absurd (Or.inl h) hflag
        · rfl
      have hp : x.permissive_ok = true := by
        cases h : x.permissive_ok
        · exact absurd (Or.inr h) hflag
        · rfl
      simp only [hrec] at hprod
      by_cases hok : gateOnOk c x.TT106 x.rho15 x.dTsub = true
      · have hgood : goodOn c x = true := by simp [goodOn, ha, hp, hok]
        rw [if_pos hok] at hprod
        by_cases hd : c.delay_on_s ≤ g.on_timer + x.dt
        · rw [onStreak_append, if_pos hgood]
          linarith
        · rw [if_neg hd] at hprod
          exact absurd hprod (by simp)
      · rw [if_neg hok] at hprod
        by_cases hd : c.delay_on_s ≤ (0:ℚ)
        · linarith
        · rw [if_neg hd] at hprod
          exact absurd hprod (by simp)
  · intro hprod ha hp hrec
    unfold gateFeed gateStep at hrec
    have hflag : ¬ (x.analyzer_ok = false ∨ x.permissive_ok = false) := by
      simp [ha, hp]
    rw [if_neg hflag] at hrec
    simp only [hprod] at hrec
    by_cases hbad : gateOffBad c x.TT106 x.rho15 x.dTsub = true
    · have hbadOff : badOff c x = true := by simp [badOff, ha, hp, hbad]
      rw [if_pos hbad] at hrec
      by_cases hd : c.delay_off_s ≤ g.off_timer + x.dt
      · rw [offStreak_append, if_pos hbadOff]
        linarith
      · rw [if_neg hd] at hrec
        exact absurd hrec (by simp)
    · rw [if_neg hbad] at hrec
      by_cases hd : c.delay_off_s ≤ (0:ℚ)
      · linarith
      · rw [if_neg hd] at hrec
        exact absurd hrec (by simp)

/-- Concrete gate configuration for the C2 witness. -/
def gateCfgW : GateCfg :=
  { TT106_on_low := 0, TT106_on_high := 100, rho15_on_low := 0, rho15_on_high := 1,
    TT106_off_low := -2, TT106_off_high := 102, rho15_off_low := -1, rho15_off_high := 2,
    dTsub_min := 0, dTsub_min_off := 0, delay_on_s := 2, delay_off_s := 1,
    perm_L_min := 10, perm_L_max := 90 }

/-- Concrete gate input for the C2 witness (all conditions good, `dt = 1`). -/
def gInW : GInput :=
  { dt := 1, TT106 := 50, rho15 := 0.5, dTsub := 10,
    analyzer_ok := true, permissive_ok := true }

/-- C2 witness: with `delay_on_s = 2` the promotion at the second good step
certifies an on-streak of at least 2 seconds. -/
theorem gate_transition_delays_witness :
    gateCfgW.delay_on_s ≤ onStreak gateCfgW ([gInW] ++ [gInW]) :=
  (gate_transition_delays gateCfgW [gInW] gInW (by with_unfolding_all decide)).1
    (by with_unfolding_all decide) (by with_unfolding_all decide)

/-! ## 5) Interlock table (`makeInterlocks`) -/

/-- `cfg.IL` thresholds. -/
structure ILCfg where
  T_feed_HH : ℚ
  T_reb_HH : ℚ
  T_cond_out_HH : ℚ
  L_v201_HH : ℚ
  L_v201_LL : ℚ
  u_draw_force_high : ℚ
  u_draw_force_low : ℚ
deriving DecidableEq, Inhabited

/-- The MV bundle mutated by the controllers and the interlock actions. -/
structure MVb where
  u_feed : ℚ
  u_steam_pre : ℚ
  u_steam_reb : ℚ
  u_cw : ℚ
  u_reflux : ℚ
  u_draw : ℚ
  force_route : Option Route
deriving DecidableEq, Inhabited

/-- The PV record produced by `DistilPlant.update`. -/
structure PVb where
  F_feed : ℚ
  T_feed_out : ℚ
  T_reb : ℚ
  TT106 : ℚ
  TT201 : ℚ
  T_cond_out : ℚ
  F_reflux : ℚ
  L_v201 : ℚ
  rho15 : ℚ
  analyzer_ok : Bool
deriving DecidableEq, Inhabited

/-- IL-01: preheater temperature HH closes the preheat steam valve. -/
def il01 (c : ILCfg) (pv : PVb) (mv : MVb) : MVb :=
  if c.T_feed_HH ≤ pv.T_feed_out then { mv with u_steam_pre := 0 } else mv

/-- IL-02: reboiler temperature HH closes the reboiler steam valve. -/
def il02 (c : ILCfg) (pv : PVb) (mv : MVb) : MVb :=
  if c.T_reb_HH ≤ pv.T_reb then { mv with u_steam_reb := 0 } else mv

/-- IL-03: condenser outlet temperature HH forces RECYCLE. -/
def il03 (c : ILCfg) (pv : PVb) (mv : MVb) : MVb :=
  if c.T_cond_out_HH ≤ pv.T_cond_out then { mv with force_route := some Route.RECYCLE } else mv

/-- IL-04: drum level HH forces the draw valve high. -/
def il04 (c : ILCfg) (pv : PVb) (mv : MVb) : MVb :=
  if c.L_v201_HH ≤ pv.L_v201 then { mv with u_draw := max mv.u_draw c.u_draw_force_high } else mv

/-- IL-05: drum level LL forces the draw valve low. -/
def il05 (c : ILCfg) (pv : PVb) (mv : MVb) : MVb :=
  if pv.L_v201 ≤ c.L_v201_LL then { mv with u_draw := min mv.u_draw c.u_draw_force_low } else mv

/-- IL-06: analyzer failure forces RECYCLE. -/
def il06 (_c : ILCfg) (pv : PVb) (mv : MVb) : MVb :=
  if pv.analyzer_ok = false then { mv with force_route := some Route.RECYCLE } else mv

/-- Walk the fixed six-rule interlock table in order (the `for` loop over
`makeInterlocks(cfg)`); later rules see MV changes from earlier ones. -/
def runInterlocks (c : ILCfg) (pv : PVb) (mv : MVb) : MVb :=
  il06 c pv (il05 c pv (il04 c pv (il03 c pv (il02 c pv (il01 c pv mv)))))

/-- Each rule either leaves `force_route` alone or sets it to RECYCLE;
hence the walked table never produces `force_route = PRODUCT`. -/
lemma runInterlocks_force (c : ILCfg) (pv : PVb) (mv : MVb) :
    (runInterlocks c pv mv).force_route = mv.force_route ∨
    (runInterlocks c pv mv).force_route = some Route.RECYCLE := by
  unfold runInterlocks il01 il02 il03 il04 il05 il06
  split_ifs <;> simp

/-- MV bounds: all six commanded values lie in `[0, 100]`. -/
def MVIn01 (mv : MVb) : Prop :=
  (0 ≤ mv.u_feed ∧ mv.u_feed ≤ 100) ∧
  (0 ≤ mv.u_steam_pre ∧ mv.u_steam_pre ≤ 100) ∧
  (0 ≤ mv.u_steam_reb ∧ mv.u_steam_reb ≤ 100) ∧
  (0 ≤ mv.u_cw ∧ mv.u_cw ≤ 100) ∧
  (0 ≤ mv.u_reflux ∧ mv.u_reflux ≤ 100) ∧
  (0 ≤ mv.u_draw ∧ mv.u_draw ≤ 100)

/-- Interlock actions keep the MVs in `[0, 100]` as long as the forced draw
values lie in `[0, 100]` themselves. -/
lemma il01_bounds (c : ILCfg) (pv : PVb) (mv : MVb) (h : MVIn01 mv) :
    MVIn01 (il01 c pv mv) := by
  obtain ⟨h1, h2, h3, h4, h5, h6⟩ := h
  unfold il01
  split
  · exact ⟨h1, ⟨le_refl 0, by norm_num⟩, h3, h4, h5, h6⟩
  · exact ⟨h1, h2, h3, h4, h5, h6⟩

lemma il02_bounds (c : ILCfg) (pv : PVb) (mv : MVb) (h : MVIn01 mv) :
    MVIn01 (il02 c pv mv) := by
  obtain ⟨h1, h2, h3, h4, h5, h6⟩ := h
  unfold il02
  split
  · exact ⟨h1, h2, ⟨le_refl 0, by norm_num⟩, h4, h5, h6⟩
  · exact ⟨h1, h2, h3, h4, h5, h6⟩

lemma il03_bounds (c : ILCfg) (pv : PVb) (mv : MVb) (h : MVIn01 mv) :
    MVIn01 (il03 c pv mv) := by
  obtain ⟨h1, h2, h3, h4, h5, h6⟩ := h
  unfold il03
  split
  · exact ⟨h1, h2, h3, h4, h5, h6⟩
  · exact ⟨h1, h2, h3, h4, h5, h6⟩

lemma il04_bounds (c : ILCfg) (pv : PVb) (mv : MVb)
    (hhi : c.u_draw_force_high ≤ 100) (h : MVIn01 mv) :
    MVIn01 (il04 c pv mv) := by
  obtain ⟨h1, h2, h3, h4, h5, h6⟩ := h
  unfold il04
  split
  · exact ⟨h1, h2, h3, h4, h5, ⟨le_max_of_le_left h6.1, max_le h6.2 hhi⟩⟩
  · exact ⟨h1, h2, h3, h4, h5, h6⟩

lemma il05_bounds (c : ILCfg) (pv : PVb) (mv : MVb)
    (hlo : 0 ≤ c.u_draw_force_low) (h : MVIn01 mv) :
    MVIn01 (il05 c pv mv) := by
  obtain ⟨h1, h2, h3, h4, h5, h6⟩ := h
  unfold il05
  split
  · exact ⟨h1, h2, h3, h4, h5, ⟨le_min h6.1 hlo, min_le_of_left_le h6.2⟩⟩
  · exact ⟨h1, h2, h3, h4, h5, h6⟩

lemma il06_bounds (c : ILCfg) (pv : PVb) (mv : MVb) (h : MVIn01 mv) :
    MVIn01 (il06 c pv mv) := by
  obtain ⟨h1, h2, h3, h4, h5, h6⟩ := h
  unfold il06
  split
  · exact ⟨h1, h2, h3, h4, h5, h6⟩
  · exact ⟨h1, h2, h3, h4, h5, h6⟩

lemma runInterlocks_bounds (c : ILCfg) (pv : PVb) (mv : MVb)
    (hhi : c.u_draw_force_high ≤ 100) (hlo : 0 ≤ c.u_draw_force_low)
    (h : MVIn01 mv) : MVIn01 (runInterlocks c pv mv) :=
  il06_bounds c pv _ (il05_bounds c pv _ hlo (il04_bounds c pv _ hhi
    (il03_bounds c pv _ (il02_bounds c pv _ (il01_bounds c pv _ h)))))

/-! ## 6) Distillation plant (`class DistilPlant`) -/

/-- Fixed nominal operating point and MV anchors of the plant. -/
def F_feed0 : ℚ := 50
def T_feed0 : ℚ := 120
def T_reb0 : ℚ := 165
def T_cond0 : ℚ := 35
def TT106_0 : ℚ := 95
def rho0 : ℚ := 0.7400
def L0 : ℚ := 50
def u_feed0 : ℚ := 50
def u_steam_pre0 : ℚ := 35
def u_steam_reb0 : ℚ := 40
def u_cw0 : ℚ := 45
def u_reflux0 : ℚ := 55
def u_draw0 : ℚ := 25
def F_cond0 : ℚ := 70

/-- Plant state: seven FOPDT blocks, the drum level `L`, the disturbance
fields and the analyzer flag. -/
structure DistilPlant where
  dt : ℚ
  G_Ffeed : FOPDTDev
  G_Tfeed : FOPDTDev
  G_Treb : FOPDTDev
  G_Fref : FOPDTDev
  G_Tcond : FOPDTDev
  G_TT106 : FOPDTDev
  G_rho : FOPDTDev
  L : ℚ
  d_feed_temp : ℚ
  d_vapor_load : ℚ
  cw_degrade : ℚ
  analyzer_ok : Bool
deriving DecidableEq, Inhabited

/-- `new DistilPlant(dt)`. -/
def plantNew (dt : ℚ) : DistilPlant :=
  { dt := dt
    G_Ffeed := mkFOPDT 1 25 2 F_feed0 u_feed0 dt
    G_Tfeed := mkFOPDT 0.60 140 10 T_feed0 u_steam_pre0 dt
    G_Treb := mkFOPDT 0.85 180 12 T_reb0 u_steam_reb0 dt
    G_Fref := mkFOPDT 0.80 40 3 50 u_reflux0 dt
    G_Tcond := mkFOPDT (-0.25) 160 12 T_cond0 u_cw0 dt
    G_TT106 := mkFOPDT 1 120 8 TT106_0 TT106_0 dt
    G_rho := mkFOPDT 1 240 30 rho0 rho0 dt
    L := L0
    d_feed_temp := 0
    d_vapor_load := 0
    cw_degrade := 1
    analyzer_ok := true }

/-- `DistilPlant.reset()`. -/
def plantReset (p : DistilPlant) : DistilPlant :=
  { p with
    G_Ffeed := p.G_Ffeed.reset F_feed0 u_feed0
    G_Tfeed := p.G_Tfeed.reset T_feed0 u_steam_pre0
    G_Treb := p.G_Treb.reset T_reb0 u_steam_reb0
    G_Fref := p.G_Fref.reset 50 u_reflux0
    G_Tcond := p.G_Tcond.reset T_cond0 u_cw0
    G_TT106 := p.G_TT106.reset TT106_0 TT106_0
    G_rho := p.G_rho.reset rho0 rho0
    L := L0
    d_feed_temp := 0
    d_vapor_load := 0
    cw_degrade := 1
    analyzer_ok := true }

/-- One step's worth of measurement-noise samples (the nine `randn()` draws
of `DistilPlant.update`). -/
structure NoiseV where
  nF_feed : ℚ
  nT_feed_out : ℚ
  nT_reb : ℚ
  nTT106 : ℚ
  nTT201 : ℚ
  nT_cond_out : ℚ
  nF_reflux : ℚ
  nL_v201 : ℚ
  nrho15 : ℚ
deriving DecidableEq, Inhabited

/-- The all-zero noise sample. -/
def noise0 : NoiseV := ⟨0, 0, 0, 0, 0, 0, 0, 0, 0⟩

/-- `DistilPlant.update(mv, noise)`: clamp the MVs, advance the FOPDT
network, integrate the drum level and produce the PV record (optionally with
additive measurement noise from the given noise sample). -/
def DistilPlant.update (p : DistilPlant)
    (mu_feed mu_steam_pre mu_steam_reb mu_cw mu_reflux mu_draw : ℚ)
    (noise : Bool) (nv : NoiseV) : DistilPlant × PVb :=
  let u_feed := clamp mu_feed 0 100
  let u_steam_pre := clamp mu_steam_pre 0 100
  let u_steam_reb := clamp mu_steam_reb 0 100
  let u_cw := clamp mu_cw 0 100
  let u_reflux := clamp mu_reflux 0 100
  let u_draw := clamp mu_draw 0 100
  let rF := p.G_Ffeed.update u_feed 0
  let F_feed := rF.2
  let rTf := p.G_Tfeed.update u_steam_pre p.d_feed_temp
  let T_feed_out := rTf.2
  let rTr := p.G_Treb.update u_steam_reb p.d_vapor_load
  let T_reb := rTr.2
  let rFr := p.G_Fref.update u_reflux 0
  let F_reflux := rFr.2
  let u_cw_eff := u_cw * p.cw_degrade
  let rTc := p.G_Tcond.update u_cw_eff 0
  let T_cond_out := rTc.2
  let TT106_ss := TT106_0 + 0.35 * (T_reb - T_reb0) - 0.20 * (F_reflux - 50)
                  + 0.05 * (F_feed - F_feed0)
  let rTT := p.G_TT106.update TT106_ss 0
  let TT106 := rTT.2
  let TT201 := TT106 + 0.20 * (T_reb - T_reb0)
  let F_cond_in := max 0 (F_cond0 + 0.20 * (T_reb - T_reb0) + 0.10 * (F_feed - F_feed0))
  let F_draw := 0.8 * u_draw
  let dL := (F_cond_in - F_reflux - F_draw) * (p.dt / 200)
  let L' := clamp (p.L + dL) 0 100
  let rho_ss := rho0 + 0.0009 * (TT106 - TT106_0) - 0.0011 * (F_reflux - 50)
  let rR := p.G_rho.update rho_ss 0
  let rho15 := rR.2
  let p' := { p with G_Ffeed := rF.1, G_Tfeed := rTf.1, G_Treb := rTr.1,
                     G_Fref := rFr.1, G_Tcond := rTc.1, G_TT106 := rTT.1,
                     G_rho := rR.1, L := L' }
  let pv : PVb := { F_feed := F_feed, T_feed_out := T_feed_out, T_reb := T_reb,
                    TT106 := TT106, TT201 := TT201, T_cond_out := T_cond_out,
                    F_reflux := F_reflux, L_v201 := L', rho15 := rho15,
                    analyzer_ok := p.analyzer_ok }
  if noise = false then (p', pv)
  else (p', { pv with
    F_feed := pv.F_feed + nv.nF_feed * 0.4
    T_feed_out := pv.T_feed_out + nv.nT_feed_out * 0.2
    T_reb := pv.T_reb + nv.nT_reb * 0.25
    TT106 := pv.TT106 + nv.nTT106 * 0.25
    TT201 := pv.TT201 + nv.nTT201 * 0.25
    T_cond_out := pv.T_cond_out + nv.nT_cond_out * 0.2
    F_reflux := pv.F_reflux + nv.nF_reflux * 0.5
    L_v201 := pv.L_v201 + nv.nL_v201 * 0.2
    rho15 := pv.rho15 + nv.nrho15 * 0.0005 })

/-! ## 7) Configuration (`BASE_CONFIG` shape) -/

structure SimCfg where
  sim_s : ℚ
  dt : ℚ
  noise : Bool
deriving DecidableEq, Inhabited

structure SPCfg where
  F_feed : ℚ
  T_feed_out : ℚ
  T_reboiler : ℚ
  T_cond_out : ℚ
  F_reflux : ℚ
  L_v201 : ℚ
deriving DecidableEq, Inhabited

structure RampCfg where
  rate_F_feed : ℚ
  rate_T_feed_out : ℚ
  rate_T_reboiler : ℚ
  rate_T_cond_out : ℚ
  rate_F_reflux : ℚ
  rate_L_v201 : ℚ
deriving DecidableEq, Inhabited

structure MVInit where
  u_feed : ℚ
  u_steam_pre : ℚ
  u_steam_reb : ℚ
  u_cw : ℚ
  u_reflux : ℚ
  u_draw : ℚ
deriving DecidableEq, Inhabited

structure LoopsCfg where
  FIC101 : LoopCfg
  TIC101 : LoopCfg
  TIC102 : LoopCfg
  TIC201 : LoopCfg
  FIC201 : LoopCfg
  LIC201 : LoopCfg
deriving DecidableEq, Inhabited

/-- The setpoint keys understood by the SP-step mechanism. -/
inductive SPKey | F_feed | T_feed_out | T_reb | T_cond_out | F_reflux | L_v201
deriving DecidableEq, Inhabited

/-- One SP-step event `{t, key, delta}`; `key = none` models an unknown key,
which `simulate` ignores. -/
structure SPStep where
  t : ℚ
  key : Option SPKey
  delta : ℚ
deriving DecidableEq, Inhabited

structure TestCfg where
  sp_steps : List SPStep
  t_feed_dist : ℚ
  d_feed_temp : ℚ
  t_vapor_dist : ℚ
  d_vapor : ℚ
  t_cw_degrade : ℚ
  cw_degrade_drop : ℚ
  analyzer_fail_enable : Bool
  t_analyzer_fail : ℚ
deriving DecidableEq, Inhabited

/-- The scenario configuration consumed by `simulate` (the `METRIC` section,
which only feeds the metric post-processing, is kept out of the record). -/
structure Cfg where
  SIM : SimCfg
  SP : SPCfg
  RAMP : RampCfg
  MV_INIT : MVInit
  LOOP : LoopsCfg
  GATE : GateCfg
  IL : ILCfg
  TEST : TestCfg
deriving DecidableEq, Inhabited

/-- `BASE_CONFIG` (the `METRIC` section aside). -/
def BASE_CONFIG : Cfg :=
  { SIM := { sim_s := 3600, dt := 1, noise := true }
    SP := { F_feed := 50, T_feed_out := 120, T_reboiler := 165,
            T_cond_out := 35, F_reflux := 50, L_v201 := 50 }
    RAMP := { rate_F_feed := 0.50, rate_T_feed_out := 0.05, rate_T_reboiler := 0.05,
              rate_T_cond_out := 0.05, rate_F_reflux := 0.50, rate_L_v201 := 0.20 }
    MV_INIT := { u_feed := 50, u_steam_pre := 35, u_steam_reb := 40,
                 u_cw := 45, u_reflux := 55, u_draw := 25 }
    LOOP :=
      { FIC101 := { Kp := 1.2, Ti := 40, out_min := 0, out_max := 100, bias := 50,
                    aw := 0.12, action := PIAction.direct }
        TIC101 := { Kp := 1.2, Ti := 180, out_min := 0, out_max := 100, bias := 35,
                    aw := 0.15, action := PIAction.direct }
        TIC102 := { Kp := 1.1, Ti := 220, out_min := 0, out_max := 100, bias := 40,
                    aw := 0.15, action := PIAction.direct }
        TIC201 := { Kp := 1.0, Ti := 220, out_min := 0, out_max := 100, bias := 45,
                    aw := 0.15, action := PIAction.reverse }
        FIC201 := { Kp := 1.4, Ti := 80, out_min := 0, out_max := 100, bias := 55,
                    aw := 0.10, action := PIAction.direct }
        LIC201 := { Kp := 0.8, Ti := 400, out_min := 0, out_max := 100, bias := 25,
                    aw := 0.08, action := PIAction.reverse } }
    GATE := { TT106_on_low := 60, TT106_on_high := 120,
              rho15_on_low := 0.700, rho15_on_high := 0.775,
              TT106_off_low := 58, TT106_off_high := 122,
              rho15_off_low := 0.695, rho15_off_high := 0.780,
              dTsub_min := 5, dTsub_min_off := 4,
              delay_on_s := 120, delay_off_s := 30,
              perm_L_min := 10, perm_L_max := 90 }
    IL := { T_feed_HH := 150, T_reb_HH := 200, T_cond_out_HH := 46,
            L_v201_HH := 95, L_v201_LL := 5,
            u_draw_force_high := 90, u_draw_force_low := 0 }
    TEST := { sp_steps := [], t_feed_dist := 900, d_feed_temp := 0,
              t_vapor_dist := 1500, d_vapor := 0, t_cw_degrade := 2100,
              cw_degrade_drop := 0, analyzer_fail_enable := false,
              t_analyzer_fail := 2600 } }

/-! ## 8) Simulation core (`simulate`) -/

/-- Ramped-setpoint state (the mutable `sp` object of `simulate`). -/
structure SPState where
  F_feed : ℚ
  T_feed_out : ℚ
  T_reb : ℚ
  T_cond_out : ℚ
  F_reflux : ℚ
  L_v201 : ℚ
deriving DecidableEq, Inhabited

/-- The six PI controllers of the loop table. -/
structure Controllers where
  FIC101 : PI
  TIC101 : PI
  TIC102 : PI
  TIC201 : PI
  FIC201 : PI
  LIC201 : PI
deriving DecidableEq, Inhabited

/-- Scheduler state carried across steps. -/
structure SimState where
  plant : DistilPlant
  gate : Gate
  C : Controllers
  sp : SPState
  mv : MVb
  init_done : Bool
deriving DecidableEq, Inhabited

/-- One logged trace row (the per-step `log.*.push(...)` block), plus two
instrumentation fields: the gate's provisional route before the interlock
override (`gateRoute`) and the plant's `cw_degrade` at this step. -/
structure SimRow where
  t : ℚ
  F_feed : ℚ
  T_feed_out : ℚ
  T_reb : ℚ
  TT106 : ℚ
  TT201 : ℚ
  T_cond_out : ℚ
  F_reflux : ℚ
  L_v201 : ℚ
  rho15 : ℚ
  analyzer_ok : Bool
  SP_F_feed : ℚ
  SP_T_feed_out : ℚ
  SP_T_reb : ℚ
  SP_T_cond_out : ℚ
  SP_F_reflux : ℚ
  SP_L_v201 : ℚ
  u_feed : ℚ
  u_steam_pre : ℚ
  u_steam_reb : ℚ
  u_cw : ℚ
  u_reflux : ℚ
  u_draw : ℚ
  dTsub : ℚ
  route : Route
  gateRoute : Route
  cw_degrade : ℚ
deriving DecidableEq, Inhabited

/-- Scheduler initialization: fresh reset plant, reset gate, the six PI
controllers reset at the MV-init values, ramped SP at the base setpoints,
the initial MV bundle and `init_done = false`. -/
def initState (cfg : Cfg) : SimState :=
  let dt := cfg.SIM.dt
  { plant := plantReset (plantNew dt)
    gate := gate0
    C := { FIC101 := (mkPI cfg.LOOP.FIC101 dt).reset cfg.MV_INIT.u_feed
           TIC101 := (mkPI cfg.LOOP.TIC101 dt).reset cfg.MV_INIT.u_steam_pre
           TIC102 := (mkPI cfg.LOOP.TIC102 dt).reset cfg.MV_INIT.u_steam_reb
           TIC201 := (mkPI cfg.LOOP.TIC201 dt).reset cfg.MV_INIT.u_cw
           FIC201 := (mkPI cfg.LOOP.FIC201 dt).reset cfg.MV_INIT.u_reflux
           LIC201 := (mkPI cfg.LOOP.LIC201 dt).reset cfg.MV_INIT.u_draw }
    sp := { F_feed := cfg.SP.F_feed, T_feed_out := cfg.SP.T_feed_out,
            T_reb := cfg.SP.T_reboiler, T_cond_out := cfg.SP.T_cond_out,
            F_reflux := cfg.SP.F_reflux, L_v201 := cfg.SP.L_v201 }
    mv := { u_feed := cfg.MV_INIT.u_feed, u_steam_pre := cfg.MV_INIT.u_steam_pre,
            u_steam_reb := cfg.MV_INIT.u_steam_reb, u_cw := cfg.MV_INIT.u_cw,
            u_reflux := cfg.MV_INIT.u_reflux, u_draw := cfg.MV_INIT.u_draw,
            force_route := none }
    init_done := false }

/-- Step 1 of the loop body: apply the disturbance / analyzer schedule to
the plant state (`ti = i·dt`). -/
def stepDist (cfg : Cfg) (st : SimState) (i : ℕ) : DistilPlant :=
  let ti : ℚ := i * cfg.SIM.dt
  { st.plant with
    d_feed_temp := stepSig ti cfg.TEST.t_feed_dist cfg.TEST.d_feed_temp
    d_vapor_load := stepSig ti cfg.TEST.t_vapor_dist cfg.TEST.d_vapor
    cw_degrade := clamp01 (1 - stepSig ti cfg.TEST.t_cw_degrade cfg.TEST.cw_degrade_drop)
    analyzer_ok := if cfg.TEST.analyzer_fail_enable
                   then decide (ti < cfg.TEST.t_analyzer_fail) else true }

/-- Step 2: SP targets — base setpoints plus every SP-step event whose time
has come; unknown keys are ignored. -/
def stepTarget (cfg : Cfg) (i : ℕ) : SPState :=
  let ti : ℚ := i * cfg.SIM.dt
  cfg.TEST.sp_steps.foldl (fun (a : SPState) s =>
    if s.t ≤ ti then
      match s.key with
      | some SPKey.F_feed => { a with F_feed := a.F_feed + s.delta }
      | some SPKey.T_feed_out => { a with T_feed_out := a.T_feed_out + s.delta }
      | some SPKey.T_reb => { a with T_reb := a.T_reb + s.delta }
      | some SPKey.T_cond_out => { a with T_cond_out := a.T_cond_out + s.delta }
      | some SPKey.F_reflux => { a with F_reflux := a.F_reflux + s.delta }
      | some SPKey.L_v201 => { a with L_v201 := a.L_v201 + s.delta }
      | none => a
    else a)
    { F_feed := cfg.SP.F_feed, T_feed_out := cfg.SP.T_feed_out,
      T_reb := cfg.SP.T_reboiler, T_cond_out := cfg.SP.T_cond_out,
      F_reflux := cfg.SP.F_reflux, L_v201 := cfg.SP.L_v201 }

/-- Step 3: ramp each SP toward its target. -/
def stepSP (cfg : Cfg) (st : SimState) (i : ℕ) : SPState :=
  let tgt := stepTarget cfg i
  { F_feed := ramp st.sp.F_feed tgt.F_feed cfg.RAMP.rate_F_feed cfg.SIM.dt
    T_feed_out := ramp st.sp.T_feed_out tgt.T_feed_out cfg.RAMP.rate_T_feed_out cfg.SIM.dt
    T_reb := ramp st.sp.T_reb tgt.T_reb cfg.RAMP.rate_T_reboiler cfg.SIM.dt
    T_cond_out := ramp st.sp.T_cond_out tgt.T_cond_out cfg.RAMP.rate_T_cond_out cfg.SIM.dt
    F_reflux := ramp st.sp.F_reflux tgt.F_reflux cfg.RAMP.rate_F_reflux cfg.SIM.dt
    L_v201 := ramp st.sp.L_v201 tgt.L_v201 cfg.RAMP.rate_L_v201 cfg.SIM.dt }

/-- Step 4: advance the plant with the current (previous-step) MVs. -/
def stepPlantPV (cfg : Cfg) (nu : ℕ → NoiseV) (st : SimState) (i : ℕ) :
    DistilPlant × PVb :=
  (stepDist cfg st i).update st.mv.u_feed st.mv.u_steam_pre st.mv.u_steam_reb
    st.mv.u_cw st.mv.u_reflux st.mv.u_draw cfg.SIM.noise (nu i)

/-- The PV record sampled at this step. -/
def stepPV (cfg : Cfg) (nu : ℕ → NoiseV) (st : SimState) (i : ℕ) : PVb :=
  (stepPlantPV cfg nu st i).2

/-- Step 5: first-step bumpless initialization (`track` each controller). -/
def stepCtrlInit (cfg : Cfg) (nu : ℕ → NoiseV) (st : SimState) (i : ℕ) : Controllers :=
  if st.init_done then st.C
  else
    let sp1 := stepSP cfg st i
    let pv := stepPV cfg nu st i
    { FIC101 := st.C.FIC101.track st.mv.u_feed sp1.F_feed pv.F_feed
      TIC101 := st.C.TIC101.track st.mv.u_steam_pre sp1.T_feed_out pv.T_feed_out
      TIC102 := st.C.TIC102.track st.mv.u_steam_reb sp1.T_reb pv.T_reb
      TIC201 := st.C.TIC201.track st.mv.u_cw sp1.T_cond_out pv.T_cond_out
      FIC201 := st.C.FIC201.track st.mv.u_reflux sp1.F_reflux pv.F_reflux
      LIC201 := st.C.LIC201.track st.mv.u_draw sp1.L_v201 pv.L_v201 }

/-- Step 6: run the six controllers; the resulting controller states and the
pre-interlock MV bundle (with `force_route` cleared to `null`). -/
def stepCtrlU (cfg : Cfg) (nu : ℕ → NoiseV) (st : SimState) (i : ℕ) :
    Controllers × MVb :=
  let sp1 := stepSP cfg st i
  let pv := stepPV cfg nu st i
  let C1 := stepCtrlInit cfg nu st i
  let rF := C1.FIC101.update sp1.F_feed pv.F_feed
  let rT1 := C1.TIC101.update sp1.T_feed_out pv.T_feed_out
  let rT2 := C1.TIC102.update sp1.T_reb pv.T_reb
  let rT3 := C1.TIC201.update sp1.T_cond_out pv.T_cond_out
  let rF2 := C1.FIC201.update sp1.F_reflux pv.F_reflux
  let rL := C1.LIC201.update sp1.L_v201 pv.L_v201
  (⟨rF.1, rT1.1, rT2.1, rT3.1, rF2.1, rL.1⟩,
   { u_feed := rF.2, u_steam_pre := rT1.2, u_steam_reb := rT2.2,
     u_cw := rT3.2, u_reflux := rF2.2, u_draw := rL.2, force_route := none })

/-- Step 7: the gate update with this step's PV, `dTsub` and permissive. -/
def stepGate (cfg : Cfg) (nu : ℕ → NoiseV) (st : SimState) (i : ℕ) : Gate :=
  let pv := stepPV cfg nu st i
  let dTsub := pv.TT201 - pv.T_cond_out
  let permissive_ok : Bool :=
    decide (cfg.GATE.perm_L_min < pv.L_v201 ∧ pv.L_v201 < cfg.GATE.perm_L_max)
  gateStep cfg.GATE st.gate cfg.SIM.dt pv.TT106 pv.rho15 dTsub
    pv.analyzer_ok permissive_ok

/-- Step 8: walk the interlock table over the pre-interlock MV bundle. -/
def stepMV (cfg : Cfg) (nu : ℕ → NoiseV) (st : SimState) (i : ℕ) : MVb :=
  runInterlocks cfg.IL (stepPV cfg nu st i) (stepCtrlU cfg nu st i).2

/-- Step 9: re-track every controller whose MV the interlocks moved by more
than `eps = 1e-6`. -/
def stepCtrl2 (cfg : Cfg) (nu : ℕ → NoiseV) (st : SimState) (i : ℕ) : Controllers :=
  let sp1 := stepSP cfg st i
  let pv := stepPV cfg nu st i
  let r := stepCtrlU cfg nu st i
  let mv1 := r.2
  let mv2 := stepMV cfg nu st i
  let eps : ℚ := 1/1000000
  { FIC101 := if eps < |mv2.u_feed - mv1.u_feed| then
      r.1.FIC101.track mv2.u_feed sp1.F_feed pv.F_feed else r.1.FIC101
    TIC101 := if eps < |mv2.u_steam_pre - mv1.u_steam_pre| then
      r.1.TIC101.track mv2.u_steam_pre sp1.T_feed_out pv.T_feed_out else r.1.TIC101
    TIC102 := if eps < |mv2.u_steam_reb - mv1.u_steam_reb| then
      r.1.TIC102.track mv2.u_steam_reb sp1.T_reb pv.T_reb else r.1.TIC102
    TIC201 := if eps < |mv2.u_cw - mv1.u_cw| then
      r.1.TIC201.track mv2.u_cw sp1.T_cond_out pv.T_cond_out else r.1.TIC201
    FIC201 := if eps < |mv2.u_reflux - mv1.u_reflux| then
      r.1.FIC201.track mv2.u_reflux sp1.F_reflux pv.F_reflux else r.1.FIC201
    LIC201 := if eps < |mv2.u_draw - mv1.u_draw| then
      r.1.LIC201.track mv2.u_draw sp1.L_v201 pv.L_v201 else r.1.LIC201 }

/-- Step 10: the interlock `force_route` (when set) overrides the gate. -/
def routeAfterIL (force : Option Route) (r0 : Route) : Route :=
  match force with
  | some r => r
  | none => r0

/-- The final logged route of the step. -/
def stepRoute (cfg : Cfg) (nu : ℕ → NoiseV) (st : SimState) (i : ℕ) : Route :=
  routeAfterIL (stepMV cfg nu st i).force_route (stepGate cfg nu st i).route

/-- One full iteration of the `for (ti = 0; ti <= sim_s; ti += dt)` body:
the new scheduler state and the logged row (`ti = i·dt`; the event log,
which no claim touches, is not modelled). -/
def simStep (cfg : Cfg) (nu : ℕ → NoiseV) (st : SimState) (i : ℕ) :
    SimState × SimRow :=
  let pv := stepPV cfg nu st i
  let sp1 := stepSP cfg st i
  let mv2 := stepMV cfg nu st i
  ({ plant := (stepPlantPV cfg nu st i).1
     gate := stepGate cfg nu st i
     C := stepCtrl2 cfg nu st i
     sp := sp1
     mv := mv2
     init_done := true },
   { t := i * cfg.SIM.dt
     F_feed := pv.F_feed
     T_feed_out := pv.T_feed_out
     T_reb := pv.T_reb
     TT106 := pv.TT106
     TT201 := pv.TT201
     T_cond_out := pv.T_cond_out
     F_reflux := pv.F_reflux
     L_v201 := pv.L_v201
     rho15 := pv.rho15
     analyzer_ok := pv.analyzer_ok
     SP_F_feed := sp1.F_feed
     SP_T_feed_out := sp1.T_feed_out
     SP_T_reb := sp1.T_reb
     SP_T_cond_out := sp1.T_cond_out
     SP_F_reflux := sp1.F_reflux
     SP_L_v201 := sp1.L_v201
     u_feed := mv2.u_feed
     u_steam_pre := mv2.u_steam_pre
     u_steam_reb := mv2.u_steam_reb
     u_cw := mv2.u_cw
     u_reflux := mv2.u_reflux
     u_draw := mv2.u_draw
     dTsub := pv.TT201 - pv.T_cond_out
     route := stepRoute cfg nu st i
     gateRoute := (stepGate cfg nu st i).route
     cw_degrade := (stepPlantPV cfg nu st i).1.cw_degrade })

/-- Run `n` iterations starting at loop index `i`, collecting the rows. -/
def simLoop (cfg : Cfg) (nu : ℕ → NoiseV) : SimState → ℕ → ℕ → List SimRow
  | _, _, 0 => []
  | st, i, n + 1 =>
    let r := simStep cfg nu st i
    r.2 :: simLoop cfg nu r.1 (i + 1) n

/-- Number of iterations of `for (ti = 0; ti <= sim_s; ti += dt)` when
`dt > 0` (with `ti = i·dt` exact, the loop runs for `i = 0 … ⌊sim_s/dt⌋`). -/
def numSteps (sim_s dt : ℚ) : ℕ :=
  if sim_s < 0 then 0 else (⌊sim_s / dt⌋).toNat + 1

/-- `simulate(cfg)`: the logged trace rows of a full run. -/
def simulate (cfg : Cfg) (nu : ℕ → NoiseV) : List SimRow :=
  simLoop cfg nu (initState cfg) 0 (numSteps cfg.SIM.sim_s cfg.SIM.dt)

lemma simLoop_length (cfg : Cfg) (nu : ℕ → NoiseV) :
    ∀ (n : ℕ) (st : SimState) (i : ℕ), (simLoop cfg nu st i n).length = n := by
  intro n
  induction n with
  | zero => intro st i; rfl
  | succ m ih => intro st i; simp [simLoop, ih]

lemma simLoop_mem (cfg : Cfg) (nu : ℕ → NoiseV) :
    ∀ (n : ℕ) (st : SimState) (i : ℕ) (row : SimRow),
      row ∈ simLoop cfg nu st i n →
      ∃ (st' : SimState) (j : ℕ), row = (simStep cfg nu st' j).2 := by
  intro n
  induction n with
  | zero => intro st i row h; simp [simLoop] at h
  | succ m ih =>
    intro st i row h
    rw [simLoop] at h
    rcases List.mem_cons.mp h with h | h
    · exact ⟨st, i, h⟩
    · exact ih _ _ row h

lemma simulate_mem (cfg : Cfg) (nu : ℕ → NoiseV) (row : SimRow)
    (h : row ∈ simulate cfg nu) :
    ∃ (st : SimState) (j : ℕ), row = (simStep cfg nu st j).2 :=
  simLoop_mem cfg nu _ _ _ row h

lemma simStep_row_t (cfg : Cfg) (nu : ℕ → NoiseV) (st : SimState) (i : ℕ) :
    (simStep cfg nu st i).2.t = i * cfg.SIM.dt := rfl

lemma simLoop_getD_t (cfg : Cfg) (nu : ℕ → NoiseV) :
    ∀ (n : ℕ) (st : SimState) (i k : ℕ), k < n →
      ((simLoop cfg nu st i n).getD k default).t = (i + k) * cfg.SIM.dt := by
  intro n
  induction n with
  | zero => intro st i k hk; omega
  | succ m ih =>
    intro st i k hk
    cases k with
    | zero =>
      simp [simLoop, simStep_row_t]
    | succ k' =>
      have h' := ih (simStep cfg nu st i).1 (i+1) k' (by omega)
      simp only [simLoop, List.getD_cons_succ]
      rw [h']
      push_cast
      ring

/-- C6: for every scenario with `dt ∈ [0.5, 5]` and `sim_s = N·dt`, the
trace produced by `simulate` has exactly `N+1` samples, and every pair of
consecutive logged times differs by exactly `dt`. -/
theorem simulate_trace_shape (cfg : Cfg) (nu : ℕ → NoiseV) (N : ℕ)
    (h1 : 1/2 ≤ cfg.SIM.dt) (h2 : cfg.SIM.dt ≤ 5)
    (h3 : cfg.SIM.sim_s = N * cfg.SIM.dt) :
    (simulate cfg nu).length = N + 1 ∧
    ∀ i : ℕ, i < N →
      ((simulate cfg nu).getD (i+1) default).t -
        ((simulate cfg nu).getD i default).t = cfg.SIM.dt := by
  have hdt : 0 < cfg.SIM.dt := lt_of_lt_of_le (by norm_num) h1
  have hnum : numSteps cfg.SIM.sim_s cfg.SIM.dt = N + 1 := by
    unfold numSteps
    rw [h3, if_neg (not_lt.mpr (by positivity)),
        mul_div_cancel_right₀ _ (ne_of_gt hdt), Int.floor_natCast, Int.toNat_natCast]
  constructor
  · rw [simulate, hnum, simLoop_length]
  · intro i hi
    rw [simulate, hnum,
        simLoop_getD_t cfg nu (N+1) (initState cfg) 0 (i+1) (by omega),
        simLoop_getD_t cfg nu (N+1) (initState cfg) 0 i (by omega)]
    push_cast
    ring

/-- Concrete configuration for the C6 witness: one step (`sim_s = 0·dt`). -/
def cfgW6 : Cfg := { BASE_CONFIG with SIM := { sim_s := 0, dt := 1, noise := false } }

/-- C6 witness: the single-sample trace of `cfgW6` has length `0 + 1`. -/
theorem simulate_trace_shape_witness :
    (simulate cfgW6 (fun _ => noise0)).length = 0 + 1 :=
  (simulate_trace_shape cfgW6 (fun _ => noise0) 0
    (by norm_num [cfgW6]) (by norm_num [cfgW6]) (by norm_num [cfgW6])).1

lemma gateStep_analyzer_false (c : GateCfg) (g : Gate) (dt TT106 rho15 dTsub : ℚ)
    (pok : Bool) : gateStep c g dt TT106 rho15 dTsub false pok = gate0 := by
  unfold gateStep
  rw [if_pos (Or.inl rfl)]

/-- Per-step form of C3: a row whose analyzer flag is down has route RECYCLE
(the gate forces RECYCLE, and the interlock override can only be RECYCLE). -/
lemma simStep_analyzer_route (cfg : Cfg) (nu : ℕ → NoiseV) (st : SimState) (i : ℕ)
    (h : (simStep cfg nu st i).2.analyzer_ok = false) :
    (simStep cfg nu st i).2.route = Route.RECYCLE := by
  have hpv : (stepPV cfg nu st i).analyzer_ok = false := h
  have hgate : (stepGate cfg nu st i).route = Route.RECYCLE := by
    unfold stepGate
    simp only []
    rw [hpv, gateStep_analyzer_false]
    rfl
  have hforce : (stepMV cfg nu st i).force_route = none ∨
      (stepMV cfg nu st i).force_route = some Route.RECYCLE :=
    runInterlocks_force cfg.IL (stepPV cfg nu st i) (stepCtrlU cfg nu st i).2
  show stepRoute cfg nu st i = Route.RECYCLE
  unfold stepRoute
  rcases hforce with hf | hf <;> rw [hf] <;> simp [routeAfterIL, hgate]

/-- C3: at every step of every `simulate` run, if the logged analyzer flag
is false then the logged route is RECYCLE. -/
theorem analyzer_fault_forces_recycle (cfg : Cfg) (nu : ℕ → NoiseV) (row : SimRow)
    (hmem : row ∈ simulate cfg nu) (h : row.analyzer_ok = false) :
    row.route = Route.RECYCLE := by
  obtain ⟨st, j, rfl⟩ := simulate_mem cfg nu row hmem
  exact simStep_analyzer_route cfg nu st j h

/-- Concrete configuration for the C3 witness: the analyzer is failed from
`t = 0` on, one step, noise off. -/
def cfgW3 : Cfg :=
  { BASE_CONFIG with
    SIM := { sim_s := 0, dt := 1, noise := false }
    TEST := { BASE_CONFIG.TEST with analyzer_fail_enable := true, t_analyzer_fail := 0 } }

/-- C3 witness: in the one-step run of `cfgW3` the analyzer is down and the
logged route is RECYCLE. -/
theorem analyzer_fault_forces_recycle_witness :
    ((simulate cfgW3 (fun _ => noise0)).headD default).route = Route.RECYCLE :=
  analyzer_fault_forces_recycle cfgW3 (fun _ => noise0) _
    (by with_unfolding_all decide) (by with_unfolding_all decide)

/-- C10: no rule of the fixed six-rule interlock table ever sets
`force_route` to PRODUCT — the walked table preserves
`force_route ≠ PRODUCT` — and consequently, at every step of every
`simulate` run, a logged route of PRODUCT implies that the QualityGate state
machine itself returned PRODUCT at that step. -/
theorem interlocks_never_force_product :
    (∀ (c : ILCfg) (pv : PVb) (mv : MVb), mv.force_route ≠ some Route.PRODUCT →
       (runInterlocks c pv mv).force_route ≠ some Route.PRODUCT) ∧
    (∀ (cfg : Cfg) (nu : ℕ → NoiseV) (row : SimRow), row ∈ simulate cfg nu →
       row.route = Route.PRODUCT → row.gateRoute = Route.PRODUCT) := by
  constructor
  · intro c pv mv h
    rcases runInterlocks_force c pv mv with hf | hf <;> rw [hf] <;> simp_all
  · intro cfg nu row hmem hr
    obtain ⟨st, j, rfl⟩ := simulate_mem cfg nu row hmem
    have hr' : routeAfterIL (stepMV cfg nu st j).force_route
        (stepGate cfg nu st j).route = Route.PRODUCT := hr
    have hforce : (stepMV cfg nu st j).force_route = none ∨
        (stepMV cfg nu st j).force_route = some Route.RECYCLE :=
      runInterlocks_force cfg.IL (stepPV cfg nu st j) (stepCtrlU cfg nu st j).2
    show (stepGate cfg nu st j).route = Route.PRODUCT
    rcases hforce with hf | hf
    · rw [hf] at hr'
      exact hr'
    · rw [hf] at hr'
      simp [routeAfterIL] at hr'

/-- Concrete configuration for the C10 witness: promotion delay zero, so the
gate reaches PRODUCT at the very first (healthy) step. -/
def cfgW10 : Cfg :=
  { BASE_CONFIG with
    SIM := { sim_s := 0, dt := 1, noise := false }
    GATE := { BASE_CONFIG.GATE with delay_on_s := 0 } }

/-- C10 witness: in the one-step run of `cfgW10` the logged route is PRODUCT
and the theorem yields that the gate itself returned PRODUCT. -/
theorem interlocks_never_force_product_witness :
    ((simulate cfgW10 (fun _ => noise0)).headD default).gateRoute = Route.PRODUCT :=
  interlocks_never_force_product.2 cfgW10 (fun _ => noise0) _
    (by with_unfolding_all decide) (by with_unfolding_all decide)

/-! ### C4: bounds of the logged signals -/

lemma PI.track_out_min (c : PI) (u sp pv : ℚ) : (c.track u sp pv).out_min = c.out_min := by
  unfold PI.track
  split <;> rfl

lemma PI.track_out_max (c : PI) (u sp pv : ℚ) : (c.track u sp pv).out_max = c.out_max := by
  unfold PI.track
  split <;> rfl

lemma PI.update_out_mem (c : PI) (sp pv : ℚ) (h : c.out_min ≤ c.out_max) :
    c.out_min ≤ (c.update sp pv).2 ∧ (c.update sp pv).2 ≤ c.out_max :=
  clamp_mem _ _ _ h

/-- All six controllers have output range `[0, 100]`. -/
def CtrlOut01 (C : Controllers) : Prop :=
  (C.FIC101.out_min = 0 ∧ C.FIC101.out_max = 100) ∧
  (C.TIC101.out_min = 0 ∧ C.TIC101.out_max = 100) ∧
  (C.TIC102.out_min = 0 ∧ C.TIC102.out_max = 100) ∧
  (C.TIC201.out_min = 0 ∧ C.TIC201.out_max = 100) ∧
  (C.FIC201.out_min = 0 ∧ C.FIC201.out_max = 100) ∧
  (C.LIC201.out_min = 0 ∧ C.LIC201.out_max = 100)

/-- All six loop configurations have output range `[0, 100]` (as in
`BASE_CONFIG`, which `build_cfg_from_params` never alters). -/
def LoopOut01 (L : LoopsCfg) : Prop :=
  (L.FIC101.out_min = 0 ∧ L.FIC101.out_max = 100) ∧
  (L.TIC101.out_min = 0 ∧ L.TIC101.out_max = 100) ∧
  (L.TIC102.out_min = 0 ∧ L.TIC102.out_max = 100) ∧
  (L.TIC201.out_min = 0 ∧ L.TIC201.out_max = 100) ∧
  (L.FIC201.out_min = 0 ∧ L.FIC201.out_max = 100) ∧
  (L.LIC201.out_min = 0 ∧ L.LIC201.out_max = 100)

lemma initState_ctrlOut01 (cfg : Cfg) (h : LoopOut01 cfg.LOOP) :
    CtrlOut01 (initState cfg).C := by
  obtain ⟨h1, h2, h3, h4, h5, h6⟩ := h
  exact ⟨⟨h1.1, h1.2⟩, ⟨h2.1, h2.2⟩, ⟨h3.1, h3.2⟩,
         ⟨h4.1, h4.2⟩, ⟨h5.1, h5.2⟩, ⟨h6.1, h6.2⟩⟩

lemma ctrlOut01_init (cfg : Cfg) (nu : ℕ → NoiseV) (st : SimState) (i : ℕ)
    (h : CtrlOut01 st.C) : CtrlOut01 (stepCtrlInit cfg nu st i) := by
  obtain ⟨h1, h2, h3, h4, h5, h6⟩ := h
  unfold stepCtrlInit
  split
  · exact ⟨h1, h2, h3, h4, h5, h6⟩
  · exact ⟨⟨(PI.track_out_min _ _ _ _).trans h1.1, (PI.track_out_max _ _ _ _).trans h1.2⟩,
           ⟨(PI.track_out_min _ _ _ _).trans h2.1, (PI.track_out_max _ _ _ _).trans h2.2⟩,
           ⟨(PI.track_out_min _ _ _ _).trans h3.1, (PI.track_out_max _ _ _ _).trans h3.2⟩,
           ⟨(PI.track_out_min _ _ _ _).trans h4.1, (PI.track_out_max _ _ _ _).trans h4.2⟩,
           ⟨(PI.track_out_min _ _ _ _).trans h5.1, (PI.track_out_max _ _ _ _).trans h5.2⟩,
           ⟨(PI.track_out_min _ _ _ _).trans h6.1, (PI.track_out_max _ _ _ _).trans h6.2⟩⟩

/-- The pre-interlock MV bundle produced by the six controller updates lies
in `[0, 100]` on every coordinate. -/
lemma stepCtrlU_bounds (cfg : Cfg) (nu : ℕ → NoiseV) (st : SimState) (i : ℕ)
    (h : CtrlOut01 st.C) : MVIn01 (stepCtrlU cfg nu st i).2 := by
  obtain ⟨h1, h2, h3, h4, h5, h6⟩ := ctrlOut01_init cfg nu st i h
  refine ⟨?_, ?_, ?_, ?_, ?_, ?_⟩
  · have hb := PI.update_out_mem (stepCtrlInit cfg nu st i).FIC101
      (stepSP cfg st i).F_feed (stepPV cfg nu st i).F_feed (by rw [h1.1, h1.2]; norm_num)
    rw [h1.1, h1.2] at hb
    exact hb
  · have hb := PI.update_out_mem (stepCtrlInit cfg nu st i).TIC101
      (stepSP cfg st i).T_feed_out (stepPV cfg nu st i).T_feed_out (by rw [h2.1, h2.2]; norm_num)
    rw [h2.1, h2.2] at hb
    exact hb
  · have hb := PI.update_out_mem (stepCtrlInit cfg nu st i).TIC102
      (stepSP cfg st i).T_reb (stepPV cfg nu st i).T_reb (by rw [h3.1, h3.2]; norm_num)
    rw [h3.1, h3.2] at hb
    exact hb
  · have hb := PI.update_out_mem (stepCtrlInit cfg nu st i).TIC201
      (stepSP cfg st i).T_cond_out (stepPV cfg nu st i).T_cond_out (by rw [h4.1, h4.2]; norm_num)
    rw [h4.1, h4.2] at hb
    exact hb
  · have hb := PI.update_out_mem (stepCtrlInit cfg nu st i).FIC201
      (stepSP cfg st i).F_reflux (stepPV cfg nu st i).F_reflux (by rw [h5.1, h5.2]; norm_num)
    rw [h5.1, h5.2] at hb
    exact hb
  · have hb := PI.update_out_mem (stepCtrlInit cfg nu st i).LIC201
      (stepSP cfg st i).L_v201 (stepPV cfg nu st i).L_v201 (by rw [h6.1, h6.2]; norm_num)
    rw [h6.1, h6.2] at hb
    exact hb

lemma PI.ite_track_out_min (c : PI) (cond : Prop) [Decidable cond] (u sp pv : ℚ) :
    (if cond then c.track u sp pv else c).out_min = c.out_min := by
  split
  · exact PI.track_out_min c u sp pv
  · rfl

lemma PI.ite_track_out_max (c : PI) (cond : Prop) [Decidable cond] (u sp pv : ℚ) :
    (if cond then c.track u sp pv else c).out_max = c.out_max := by
  split
  · exact PI.track_out_max c u sp pv
  · rfl

lemma ctrlOut01_step2 (cfg : Cfg) (nu : ℕ → NoiseV) (st : SimState) (i : ℕ)
    (h : CtrlOut01 st.C) : CtrlOut01 (stepCtrl2 cfg nu st i) := by
  obtain ⟨h1, h2, h3, h4, h5, h6⟩ := ctrlOut01_init cfg nu st i h
  unfold stepCtrl2
  simp only []
  refine ⟨⟨?_, ?_⟩, ⟨?_, ?_⟩, ⟨?_, ?_⟩, ⟨?_, ?_⟩, ⟨?_, ?_⟩, ⟨?_, ?_⟩⟩ <;>
    (first
      | rw [PI.ite_track_out_min]
      | rw [PI.ite_track_out_max]) <;>
    first
      | exact h1.1 | exact h1.2 | exact h2.1 | exact h2.2
      | exact h3.1 | exact h3.2 | exact h4.1 | exact h4.2
      | exact h5.1 | exact h5.2 | exact h6.1 | exact h6.2

/-- `DistilPlant.update` never touches `cw_degrade`. -/
lemma DistilPlant.update_cw (p : DistilPlant)
    (u1 u2 u3 u4 u5 u6 : ℚ) (noise : Bool) (nv : NoiseV) :
    (p.update u1 u2 u3 u4 u5 u6 noise nv).1.cw_degrade = p.cw_degrade := by
  unfold DistilPlant.update
  split <;> rfl

/-- With noise disabled, the PV level is the clamped drum level. -/
lemma DistilPlant.update_L_mem (p : DistilPlant)
    (u1 u2 u3 u4 u5 u6 : ℚ) (nv : NoiseV) :
    0 ≤ (p.update u1 u2 u3 u4 u5 u6 false nv).2.L_v201 ∧
    (p.update u1 u2 u3 u4 u5 u6 false nv).2.L_v201 ≤ 100 :=
  clamp_mem _ 0 100 (by norm_num)

/-- Per-step form of C4: for a step taken from a state whose controllers
have output range `[0, 100]` (and interlock draw-force values in range),
every logged MV is in `[0, 100]`, the logged `cw_degrade` is in `[0, 1]`,
and — when noise is off — the logged level is in `[0, 100]`. -/
lemma simStep_row_bounds (cfg : Cfg) (nu : ℕ → NoiseV) (st : SimState) (i : ℕ)
    (hC : CtrlOut01 st.C)
    (hhi : cfg.IL.u_draw_force_high ≤ 100) (hlo : 0 ≤ cfg.IL.u_draw_force_low) :
    ((0 ≤ (simStep cfg nu st i).2.u_feed ∧ (simStep cfg nu st i).2.u_feed ≤ 100) ∧
     (0 ≤ (simStep cfg nu st i).2.u_steam_pre ∧ (simStep cfg nu st i).2.u_steam_pre ≤ 100) ∧
     (0 ≤ (simStep cfg nu st i).2.u_steam_reb ∧ (simStep cfg nu st i).2.u_steam_reb ≤ 100) ∧
     (0 ≤ (simStep cfg nu st i).2.u_cw ∧ (simStep cfg nu st i).2.u_cw ≤ 100) ∧
     (0 ≤ (simStep cfg nu st i).2.u_reflux ∧ (simStep cfg nu st i).2.u_reflux ≤ 100) ∧
     (0 ≤ (simStep cfg nu st i).2.u_draw ∧ (simStep cfg nu st i).2.u_draw ≤ 100)) ∧
    (0 ≤ (simStep cfg nu st i).2.cw_degrade ∧ (simStep cfg nu st i).2.cw_degrade ≤ 1) ∧
    (cfg.SIM.noise = false →
      0 ≤ (simStep cfg nu st i).2.L_v201 ∧ (simStep cfg nu st i).2.L_v201 ≤ 100) := by
  refine ⟨?_, ?_, ?_⟩
  · have hmv : MVIn01 (stepMV cfg nu st i) :=
      runInterlocks_bounds cfg.IL (stepPV cfg nu st i) (stepCtrlU cfg nu st i).2 hhi hlo
        (stepCtrlU_bounds cfg nu st i hC)
    exact hmv
  · have hcw : (simStep cfg nu st i).2.cw_degrade = (stepDist cfg st i).cw_degrade :=
      DistilPlant.update_cw (stepDist cfg st i) st.mv.u_feed st.mv.u_steam_pre
        st.mv.u_steam_reb st.mv.u_cw st.mv.u_reflux st.mv.u_draw cfg.SIM.noise (nu i)
    rw [hcw]
    exact clamp_mem _ 0 1 (by norm_num)
  · intro hn
    have hpv : (simStep cfg nu st i).2.L_v201 =
        ((stepDist cfg st i).update st.mv.u_feed st.mv.u_steam_pre st.mv.u_steam_reb
          st.mv.u_cw st.mv.u_reflux st.mv.u_draw false (nu i)).2.L_v201 := by
      show (stepPV cfg nu st i).L_v201 = _
      unfold stepPV stepPlantPV
      rw [hn]
    rw [hpv]
    exact DistilPlant.update_L_mem (stepDist cfg st i) _ _ _ _ _ _ (nu i)

/-- Membership in a simulation segment started from a state with in-range
controllers yields a generating step whose source state is also in range. -/
lemma simLoop_mem_inv (cfg : Cfg) (nu : ℕ → NoiseV) :
    ∀ (n : ℕ) (st : SimState) (i : ℕ) (row : SimRow), CtrlOut01 st.C →
      row ∈ simLoop cfg nu st i n →
      ∃ (st' : SimState) (j : ℕ), CtrlOut01 st'.C ∧ row = (simStep cfg nu st' j).2 := by
  intro n
  induction n with
  | zero => intro st i row _ h; simp [simLoop] at h
  | succ m ih =>
    intro st i row hC h
    rw [simLoop] at h
    rcases List.mem_cons.mp h with h | h
    · exact ⟨st, i, hC, h⟩
    · exact ih _ _ row (ctrlOut01_step2 cfg nu st i hC) h

/-- C4 (amended): for every configuration whose six loop output ranges are
`[0, 100]` and whose interlock draw-force values lie in `[0, 100]`, at every
step of every `simulate` run each logged MV lies in `[0, 100]` and
`cw_degrade` lies in `[0, 1]`; the logged level `L_v201` lies in `[0, 100]`
whenever measurement noise is disabled. -/
theorem simulate_logged_bounds (cfg : Cfg) (nu : ℕ → NoiseV)
    (hloop : LoopOut01 cfg.LOOP)
    (hhi : cfg.IL.u_draw_force_high ≤ 100) (hlo : 0 ≤ cfg.IL.u_draw_force_low)
    (row : SimRow) (hmem : row ∈ simulate cfg nu) :
    ((0 ≤ row.u_feed ∧ row.u_feed ≤ 100) ∧
     (0 ≤ row.u_steam_pre ∧ row.u_steam_pre ≤ 100) ∧
     (0 ≤ row.u_steam_reb ∧ row.u_steam_reb ≤ 100) ∧
     (0 ≤ row.u_cw ∧ row.u_cw ≤ 100) ∧
     (0 ≤ row.u_reflux ∧ row.u_reflux ≤ 100) ∧
     (0 ≤ row.u_draw ∧ row.u_draw ≤ 100)) ∧
    (0 ≤ row.cw_degrade ∧ row.cw_degrade ≤ 1) ∧
    (cfg.SIM.noise = false → 0 ≤ row.L_v201 ∧ row.L_v201 ≤ 100) := by
  obtain ⟨st, j, hC, rfl⟩ := simLoop_mem_inv cfg nu _ _ _ row
    (initState_ctrlOut01 cfg hloop) hmem
  exact simStep_row_bounds cfg nu st j hC hhi hlo

/-- Configuration for the C4 counterexample: `BASE_CONFIG` with a one-step
run and measurement noise ENABLED. -/
def cfgW4 : Cfg := { BASE_CONFIG with SIM := { sim_s := 0, dt := 1, noise := true } }

/-- Noise stream for the C4 counterexample: a large (mathematically
admissible) Gaussian draw on the level channel. -/
def nuW4 : ℕ → NoiseV := fun _ => { noise0 with nL_v201 := 300 }

set_option maxRecDepth 100000 in
/-- C4 counterexample: with noise enabled, the logged `L_v201` is the
clamped drum level PLUS measurement noise, and leaves `[0, 100]` (here the
logged value is `50 + 0.2·300 = 110`), so the claimed level bound fails on
noisy runs. -/
theorem simulate_L_bound_claim_false :
    ¬ (∀ row ∈ simulate cfgW4 nuW4, row.L_v201 ≤ 100) := by
  with_unfolding_all decide

set_option maxRecDepth 100000 in
/-- C4 witness: the amended bounds at the one-step noise-free run of
`cfgW6`. -/
theorem simulate_logged_bounds_witness :
    0 ≤ ((simulate cfgW6 (fun _ => noise0)).headD default).u_feed :=
  (simulate_logged_bounds cfgW6 (fun _ => noise0)
    ⟨⟨rfl, rfl⟩, ⟨rfl, rfl⟩, ⟨rfl, rfl⟩, ⟨rfl, rfl⟩, ⟨rfl, rfl⟩, ⟨rfl, rfl⟩⟩
    (by with_unfolding_all decide)
    (by with_unfolding_all decide) _ (by with_unfolding_all decide)).1.1.1

/-! ## 9) Test-suite driver (`run_test_suite`) -/

/-- `makeCfg()`: deep-copy of the base configuration with noise disabled. -/
def makeCfg (base : Cfg) : Cfg := { base with SIM := { base.SIM with noise := false } }

/-- The ten `(name, cfg)` scenarios that `run_test_suite` builds and runs:
A0 baseline, the six B-step tests at `t = 600`, and the three C disturbance
tests. -/
def suiteTests (base : Cfg) : List (String × Cfg) :=
  let cfgA := makeCfg base
  let cfgA := { cfgA with TEST := { cfgA.TEST with
    sp_steps := [], analyzer_fail_enable := false,
    d_feed_temp := 0, d_vapor := 0, cw_degrade_drop := 0 } }
  let step_t : ℚ := 600
  let stepB := fun (key : SPKey) (delta : ℚ) =>
    let cfgB := makeCfg base
    { cfgB with TEST := { cfgB.TEST with
      sp_steps := [{ t := step_t, key := some key, delta := delta }],
      analyzer_fail_enable := false,
      d_feed_temp := 0, d_vapor := 0, cw_degrade_drop := 0 } }
  let cfgC1 := makeCfg base
  let cfgC1 := { cfgC1 with TEST := { cfgC1.TEST with
    sp_steps := [], analyzer_fail_enable := false,
    d_feed_temp := 8, cw_degrade_drop := 0, d_vapor := 0 } }
  let cfgC2 := makeCfg base
  let cfgC2 := { cfgC2 with TEST := { cfgC2.TEST with
    sp_steps := [], analyzer_fail_enable := false,
    d_feed_temp := 0, d_vapor := 0, cw_degrade_drop := 0.25 } }
  let cfgC3 := makeCfg base
  let cfgC3 := { cfgC3 with TEST := { cfgC3.TEST with
    sp_steps := [], analyzer_fail_enable := true, t_analyzer_fail := 1800,
    d_feed_temp := 0, d_vapor := 0, cw_degrade_drop := 0 } }
  [("A0_BASELINE", cfgA),
   ("B1_STEP_TIC101", stepB SPKey.T_feed_out 3),
   ("B2_STEP_TIC102", stepB SPKey.T_reb 3),
   ("B3_STEP_TIC201", stepB SPKey.T_cond_out 2),
   ("B4_STEP_FIC101", stepB SPKey.F_feed 5),
   ("B5_STEP_FIC201", stepB SPKey.F_reflux 5),
   ("B6_STEP_LIC201", stepB SPKey.L_v201 5),
   ("C1_DIST_FEED_TEMP", cfgC1),
   ("C2_DIST_CW_DEGRADE", cfgC2),
   ("C3_ANALYZER_FAIL", cfgC3)]

/-- `run_test_suite(base_cfg)`: run `simulate` over each suite scenario
(the metric post-processing is modelled separately). -/
def runSuite (base : Cfg) (nu : ℕ → NoiseV) : List (String × List SimRow) :=
  (suiteTests base).map (fun p => (p.1, simulate p.2 nu))

/-- C7: `run_test_suite` derives exactly its ten scenarios (A0 baseline,
B1–B6 setpoint steps, C1–C3 disturbance tests) and every one of them has
measurement noise disabled, regardless of the noise flag of the base
configuration. -/
theorem suite_noise_disabled (base : Cfg) :
    (suiteTests base).map Prod.fst =
      ["A0_BASELINE", "B1_STEP_TIC101", "B2_STEP_TIC102", "B3_STEP_TIC201",
       "B4_STEP_FIC101", "B5_STEP_FIC201", "B6_STEP_LIC201",
       "C1_DIST_FEED_TEMP", "C2_DIST_CW_DEGRADE", "C3_ANALYZER_FAIL"] ∧
    ∀ p ∈ suiteTests base, p.2.SIM.noise = false := by
  constructor
  · rfl
  · intro p hp
    simp only [suiteTests, List.mem_cons, List.not_mem_nil, or_false] at hp
    rcases hp with h | h | h | h | h | h | h | h | h | h <;> subst h <;> rfl

set_option maxRecDepth 10000 in
/-- C7 witness: the first suite scenario of the default configuration runs
with noise off (even though `BASE_CONFIG` enables noise). -/
theorem suite_noise_disabled_witness :
    ((suiteTests BASE_CONFIG).headD default).2.SIM.noise = false :=
  (suite_noise_disabled BASE_CONFIG).2 _ (List.mem_cons_self _ _)

/-! ## 10) Gate statistics (`gate_stats`) -/

/-- The 0/1 coding `x === "PRODUCT" ? 1 : 0` used by `gate_stats`. -/
def routeTo01 (x : Route) : ℚ := if x = Route.PRODUCT then 1 else 0

structure GateStatsR where
  productPct : ℚ
  switches : ℕ
deriving DecidableEq, Inhabited

/-- `gate_stats(routeArr)`: `frac = Σ r / max(1, r.length)` over the 0/1
coding, `switches` counts `i ∈ [1, r.length)` with `r[i] ≠ r[i−1]`,
`productPct = frac·100`. -/
def gate_stats (routeArr : List Route) : GateStatsR :=
  let r := routeArr.map routeTo01
  let frac := r.sum / max 1 (r.length : ℚ)
  let switches := (List.range' 1 (r.length - 1)).countP
    (fun i => decide (r.getD i 0 ≠ r.getD (i - 1) 0))
  { productPct := frac * 100, switches := switches }

lemma routeTo01_sum (l : List Route) :
    (l.map routeTo01).sum = (l.countP (fun x => decide (x = Route.PRODUCT)) : ℚ) := by
  induction l with
  | nil => simp
  | cons a t ih =>
    rw [List.map_cons, List.sum_cons, ih, List.countP_cons]
    cases a <;> simp [routeTo01] <;> push_cast <;> ring

lemma routeTo01_getD_map (l : List Route) (i : ℕ) :
    (l.map routeTo01).getD i 0 = routeTo01 (l.getD i Route.RECYCLE) := by
  induction l generalizing i with
  | nil => simp [routeTo01]
  | cons a t ih =>
    cases i with
    | zero => simp
    | succ k => simpa using ih k

lemma routeTo01_ne_iff (a b : Route) : (routeTo01 a ≠ routeTo01 b) ↔ a ≠ b := by
  cases a <;> cases b <;> simp [routeTo01]

lemma routeTo01_eq_iff (a b : Route) : (routeTo01 a = routeTo01 b) ↔ a = b := by
  cases a <;> cases b <;> simp [routeTo01]

lemma routeTo01_optmap_getD (l : List Route) (i : ℕ) :
    (Option.map routeTo01 l[i]?).getD 0 = routeTo01 (l[i]?.getD Route.RECYCLE) := by
  cases h : l[i]? <;> simp [routeTo01]

/-- C9 counterexample: on the two-sample route trace
`[PRODUCT, PRODUCT]` (indexed `i = 0..N` with `N = 1`), `gate_stats` returns
`productPct = 100` (it divides by the number of samples `N+1 = 2`), not the
claimed `100·(count of PRODUCT)/N = 200`. -/
theorem gate_stats_productPct_claim_false :
    ¬ ((gate_stats [Route.PRODUCT, Route.PRODUCT]).productPct =
        100 * 2 / (2 - 1 : ℚ)) := by
  with_unfolding_all decide

/-- C9 (amended): for every route trace `route[]` of `N+1` samples indexed
`i = 0..N`, `gate_stats` returns `productPct` equal to 100 times the count
of PRODUCT entries divided by the number of samples `N+1` (floored at 1),
and `switches` equal to the count of indices `i > 0` where
`route[i] ≠ route[i−1]`. -/
theorem gate_stats_spec (l : List Route) :
    (gate_stats l).productPct =
      100 * (l.countP (fun x => decide (x = Route.PRODUCT)) : ℚ) /
        max 1 (l.length : ℚ) ∧
    (gate_stats l).switches =
      (List.range l.length).countP
        (fun i => decide (0 < i) &&
          decide (l.getD i Route.RECYCLE ≠ l.getD (i - 1) Route.RECYCLE)) := by
  constructor
  · show (l.map routeTo01).sum / max 1 ((l.map routeTo01).length : ℚ) * 100 = _
    rw [routeTo01_sum, List.length_map]
    ring
  · show (List.range' 1 ((l.map routeTo01).length - 1)).countP _ = _
    rw [List.length_map]
    cases hl : l.length with
    | zero => simp
    | succ m =>
      rw [List.range_eq_range']
      simp only [Nat.zero_add, Nat.add_sub_cancel]
      rw [List.range'_succ, List.countP_cons]
      norm_num
      refine List.countP_congr ?_
      intro i hi
      have h1 : 1 ≤ i := (List.mem_range'_1.mp hi).1
      simp only [routeTo01_optmap_getD]
      have h0 : 0 < i := h1
      simp [routeTo01_eq_iff, h0]

/-! ## 11) Settling time (`settling_time`, v2.1.1 replacement) -/

/-- The window-scan loop of `settling_time` (step 4): from index `i`, while
`i < t.length`, break once the window no longer fits (`i + hold_n >
t.length`), and return `t[i]` at the first `i` whose entire window
`[i, i+hold_n)` stays inside the band. -/
def settleLoop (t pv : List ℚ) (spFinal tol : ℚ) (hold_n : ℕ) (i : ℕ) : Option ℚ :=
  if h : i < t.length then
    if t.length < i + hold_n then none
    else if (List.range' i hold_n).all (fun k => decide (|pv.getD k 0 - spFinal| ≤ tol)) then
      some (t.getD i 0)
    else settleLoop t pv spFinal tol hold_n (i + 1)
  else none
termination_by t.length - i

/-- `settling_time(t, sp, pv, band, hold_s)`.  (`Number.isFinite` guards are
vacuous over exact rationals and are dropped.) -/
def settling_time (t sp pv : List ℚ) (band hold_s : ℚ) : Option ℚ :=
  if t.length = 0 ∨ sp.length = 0 ∨ pv.length = 0 then none
  else
    let sp0 := sp.getD 0 0
    let spFinal := sp.getD (sp.length - 1) 0
    let spStepAbs := |spFinal - sp0|
    let spStepEps := max (1/1000000) (0.001 * max 1 |sp0|)
    if spStepAbs ≤ spStepEps then none
    else
      let tol := max (|spFinal| * band) (1/1000000)
      let dt := if 1 < t.length then t.getD 1 0 - t.getD 0 0 else 1
      let hold_n := max 1 (jsRound (hold_s / max dt (1/1000000000))).toNat
      match (List.range pv.length).find?
          (fun i => decide (tol < |pv.getD i 0 - spFinal|)) with
      | none => none
      | some firstOutside => settleLoop t pv spFinal tol hold_n firstOutside

/-- `SettlingTime` as the claim words it: "not defined" (null) when
`|sp_final − sp0| ≤ max(1e-6, 0.001·max(1,|sp0|))`; otherwise, with
`tol = max(|sp_final|·band, 1e-6)`, find the first index where
`|pv_i − sp_final| > tol` and from there return `t[i]` for the first `i`
whose entire window `[i, i+hold/dt)` of samples lies inside the band, or
null ("not settled") if no such window exists. -/
def settlingSpec (t sp pv : List ℚ) (band hold_s : ℚ) : Option ℚ :=
  let sp0 := sp.getD 0 0
  let spFinal := sp.getD (sp.length - 1) 0
  if |spFinal - sp0| ≤ max (1/1000000) (0.001 * max 1 |sp0|) then none
  else
    let tol := max (|spFinal| * band) (1/1000000)
    let dt := if 1 < t.length then t.getD 1 0 - t.getD 0 0 else 1
    let hold_n := max 1 (jsRound (hold_s / max dt (1/1000000000))).toNat
    match (List.range pv.length).find?
        (fun i => decide (tol < |pv.getD i 0 - spFinal|)) with
    | none => none
    | some firstOutside =>
        Option.map (fun j => t.getD j 0)
          ((List.range' firstOutside (t.length - firstOutside)).find?
            (fun j => decide (j + hold_n ≤ t.length) &&
              (List.range' j hold_n).all
                (fun k => decide (|pv.getD k 0 - spFinal| ≤ tol))))

/-- The imperative window scan computes the first qualifying index of the
remaining range (as a `find?`). -/
lemma settleLoop_eq_find (t pv : List ℚ) (spFinal tol : ℚ) (hold_n : ℕ)
    (hn : 1 ≤ hold_n) :
    ∀ (n i : ℕ), t.length - i = n →
      settleLoop t pv spFinal tol hold_n i =
        Option.map (fun j => t.getD j 0)
          ((List.range' i n).find?
            (fun j => decide (j + hold_n ≤ t.length) &&
              (List.range' j hold_n).all
                (fun k => decide (|pv.getD k 0 - spFinal| ≤ tol)))) := by
  intro n
  induction n with
  | zero =>
    intro i h
    rw [settleLoop, dif_neg (by omega)]
    rfl
  | succ m ih =>
    intro i h
    have hi : i < t.length := by omega
    rw [settleLoop, dif_pos hi, List.range'_succ]
    by_cases hb : i + hold_n ≤ t.length
    · rw [if_neg (not_lt.mpr hb)]
      by_cases hw : (List.range' i hold_n).all
          (fun k => decide (|pv.getD k 0 - spFinal| ≤ tol)) = true
      · rw [if_pos hw,
            List.find?_cons_of_pos _
              (by simp only [Bool.and_eq_true, decide_eq_true_eq]; exact ⟨hb, hw⟩)]
        rfl
      · rw [if_neg (by simpa using hw),
            List.find?_cons_of_neg _
              (by simp only [Bool.and_eq_true]; intro hc; exact hw hc.2)]
        exact ih (i + 1) (by omega)
    · rw [if_pos (not_le.mp hb)]
      have hrest : (List.range' (i + 1) m).find?
          (fun j => decide (j + hold_n ≤ t.length) &&
            (List.range' j hold_n).all
              (fun k => decide (|pv.getD k 0 - spFinal| ≤ tol))) = none := by
        rw [List.find?_eq_none]
        intro j hj
        have hij : i + 1 ≤ j := (List.mem_range'_1.mp hj).1
        simp only [Bool.and_eq_true, decide_eq_true_eq, not_and]
        intro hc
        omega
      rw [List.find?_cons_of_neg _ (by simp; omega), hrest]
      rfl

/-- C8: for nonempty trace columns, `settling_time` behaves exactly as the
claim describes: "not defined" when the setpoint does not meaningfully
change, otherwise the first held-window entry time from the first
out-of-band index, or "not settled". -/
theorem settling_time_matches_spec (t sp pv : List ℚ) (band hold_s : ℚ)
    (ht : t.length ≠ 0) (hsp : sp.length ≠ 0) (hpv : pv.length ≠ 0) :
    settling_time t sp pv band hold_s = settlingSpec t sp pv band hold_s := by
  unfold settling_time settlingSpec
  rw [if_neg (by simp [ht, hsp, hpv])]
  simp only []
  by_cases he : |sp.getD (sp.length - 1) 0 - sp.getD 0 0| ≤
      max (1/1000000) (0.001 * max 1 |sp.getD 0 0|)
  · rw [if_pos he, if_pos he]
  · rw [if_neg he, if_neg he]
    cases hf : (List.range pv.length).find?
        (fun i => decide (max (|sp.getD (sp.length - 1) 0| * band) (1/1000000) <
          |pv.getD i 0 - sp.getD (sp.length - 1) 0|)) with
    | none => rfl
    | some firstOutside =>
      exact settleLoop_eq_find t pv _ _ _ (le_max_left _ _) _ firstOutside rfl

/-- C8 witness: both formulations agree on a concrete 4-sample trace (a
setpoint step to 10, settled from `t = 1`; both return `some 1`). -/
theorem settling_time_matches_spec_witness :
    settling_time [0, 1, 2, 3] [0, 10, 10, 10] [0, 10, 10, 10] (2/100) 2 =
      settlingSpec [0, 1, 2, 3] [0, 10, 10, 10] [0, 10, 10, 10] (2/100) 2 :=
  settling_time_matches_spec _ _ _ _ _
    (by decide) (by decide) (by decide)
